import Mathlib

/-!
Verification of the normalization and idempotent-merge engine of the
Tableau metadata catalog.

The Python modules under src/Transformations and src/generate_csv are
embedded shallowly: the nested input document is a typed structure
(absent JSON keys become none / empty lists), Python sets used only for
membership are modelled as insertion-ordered duplicate-free lists, and
file-system state is passed explicitly (a CSV file is an optional list
of rows, a row being an association list from column name to value, as
produced by csv.DictReader / consumed by csv.DictWriter; the header
line itself is not a data row).  Wall-clock timestamp fields
(created_at / updated_at stamped with datetime.now()) and server-config
derived URL fields are not modelled; no claim concerns them.
-/

namespace Tableau

/-- Python truthiness of a string: the empty string is falsy. -/
def strTruthy (s : String) : Bool := !s.data.isEmpty

/-- Python truthiness of an optional string: None and the empty string are falsy. -/
def optTruthy : Option String → Bool
  | none => false
  | some s => strTruthy s

/-- Whitespace test used by str.strip, restricted to the ASCII whitespace
occurring in this data. -/
def isSpaceChar (c : Char) : Bool := c = ' ' || c = '\t' || c = '\n' || c = '\r'

/-- Embedding of Python str.strip: drop leading and trailing whitespace. -/
def pyStrip (s : String) : String :=
  String.mk (((s.data.dropWhile isSpaceChar).reverse.dropWhile isSpaceChar).reverse)

/-- ASCII lower-casing of one character, as done by str.lower on this data. -/
def lowerChar (c : Char) : Char :=
  if 'A' ≤ c ∧ c ≤ 'Z' then Char.ofNat (c.toNat + 32) else c

/-- Embedding of Python str.lower (ASCII fragment). -/
def pyLower (s : String) : String := String.mk (s.data.map lowerChar)

/-- Lexicographic comparison of character lists by code point, the order
Python uses to compare strings. -/
def charListLe : List Char → List Char → Bool
  | [], _ => true
  | _ :: _, [] => false
  | a :: as, b :: bs =>
    if a.toNat < b.toNat then true
    else if b.toNat < a.toNat then false
    else charListLe as bs

/-- Python string comparison (less-or-equal), by code points. -/
def strLeB (a b : String) : Bool := charListLe a.data b.data

/-- Insert into a membership set modelled as an insertion-ordered list:
a no-op when the element is already present.  Used wherever the Python
source keeps a set purely for membership tests. -/
def setInsert {α : Type} [DecidableEq α] (acc : List α) (x : α) : List α :=
  if x ∈ acc then acc else acc ++ [x]

/-! ## Input document model

Shape of the nested document (spec section 6): data.workbooks, each
workbook carrying owner, views, upstreamDatasources, embeddedDatasources
and tags; datasource entries nest upstreamDatabases. -/

/-- A database node under upstreamDatabases: source of Connection records. -/
structure Database where
  name : Option String := none
  connectionType : Option String := none
  typename : Option String := none
deriving Repr, DecidableEq

/-- A datasource node (upstream or embedded). -/
structure DatasourceNode where
  id : Option String := none
  name : Option String := none
  path : Option String := none
  hasExtracts : Bool := false
  extractLastRefreshTime : Option String := none
  upstreamDatabases : List Database := []
deriving Repr, DecidableEq

/-- A tag node. -/
structure TagNode where
  id : Option String := none
  name : Option String := none
deriving Repr, DecidableEq

/-- A view node. -/
structure ViewNode where
  id : Option String := none
  name : Option String := none
  path : Option String := none
  typename : Option String := none
  createdAt : Option String := none
  updatedAt : Option String := none
deriving Repr, DecidableEq

/-- An owner node; a workbook with no owner key is modelled by the
all-none owner, matching workbook.get(..., \x7b\x7d). -/
structure OwnerNode where
  id : Option String := none
  name : Option String := none
  username : Option String := none
  email : Option String := none
deriving Repr, DecidableEq

/-- A workbook node. -/
structure Workbook where
  id : Option String := none
  name : Option String := none
  projectName : Option String := none
  uri : Option String := none
  description : Option String := none
  createdAt : Option String := none
  updatedAt : Option String := none
  owner : OwnerNode := {}
  views : List ViewNode := []
  upstreamDatasources : List DatasourceNode := []
  embeddedDatasources : List DatasourceNode := []
  tags : List TagNode := []
deriving Repr, DecidableEq

/-- The raw document: raw_data.get('data', \x7b\x7d).get('workbooks', []). -/
structure RawData where
  workbooks : List Workbook := []
deriving Repr, DecidableEq

/-! ## Connection entity extractor

Embedding of get_connections in src/src/Transformations/list_connection.py. -/

/-- A Connection record as built by get_connections. -/
structure Connection where
  id : String
  name : String
  connection_type : String
  connects_to : String
deriving Repr, DecidableEq

/-- Composite key of a database node as computed by get_connections:
stripped name, connectionType and the node's typename. -/
def dbKey (db : Database) : String × String × String :=
  (pyStrip (db.name.getD ("")),
   pyStrip (db.connectionType.getD ("")),
   pyStrip (db.typename.getD ("")))

/-- One step of get_connections over a database node: skip the node when
any key component is empty, skip when the composite key was already seen,
otherwise record the key and append a Connection whose id is conn_ followed
by the running count. -/
def connStep (st : List (String × String × String) × List Connection) (db : Database) :
    List (String × String × String) × List Connection :=
  let k := dbKey db
  if strTruthy k.1 && strTruthy k.2.1 && strTruthy k.2.2 then
    if k ∈ st.1 then st
    else (st.1 ++ [k],
          st.2 ++ [{ id := "conn_" ++ toString st.2.length,
                     name := k.1, connection_type := k.2.1, connects_to := k.2.2 }])
  else st

/-- Ordering used by the final connections.sort(key=name): Python string
comparison on the name field. -/
def connLe (a b : Connection) : Prop := strLeB a.name b.name = true

instance : DecidableRel connLe := fun _ _ => instDecidableEqBool _ _

/-- Step of get_connections over one datasource node: fold connStep over
its databases. -/
def connDsStep (st : List (String × String × String) × List Connection)
    (ds : DatasourceNode) : List (String × String × String) × List Connection :=
  ds.upstreamDatabases.foldl connStep st

/-- Step of get_connections over one workbook: upstream datasources first,
then embedded ones. -/
def connWbStep (st : List (String × String × String) × List Connection)
    (wb : Workbook) : List (String × String × String) × List Connection :=
  wb.embeddedDatasources.foldl connDsStep (wb.upstreamDatasources.foldl connDsStep st)

/-- Embedding of get_connections: walk upstream then embedded datasources
of every workbook, deduplicate by composite key with synthetic sequential
ids, then stable-sort by name. -/
def get_connections (raw : RawData) : List Connection :=
  List.insertionSort connLe (raw.workbooks.foldl connWbStep ([], [])).2

/-- Composite key carried by an emitted Connection record, the identity
the spec assigns to connections. -/
def connCompKey (c : Connection) : String × String × String :=
  (c.name, c.connection_type, c.connects_to)

/-! ## Datasource-connection relation extractor

Embedding of get_datasource_connections in
src/src/Transformations/list_datasources_connections.py. -/

/-- A DatasourceConnection relation row. -/
structure DatasourceConnectionRow where
  datasource_id : String
  connection_id : String
deriving Repr, DecidableEq

/-- Embedding of get_datasource_connections: for every datasource with a
truthy id, and every database under it with a truthy connectionType, emit
a row whose connection_id is that connectionType string. -/
def get_datasource_connections (raw : RawData) : List DatasourceConnectionRow :=
  raw.workbooks.foldl (fun acc wb =>
    let dsStep := fun (acc : List DatasourceConnectionRow) (ds : DatasourceNode) =>
      if optTruthy ds.id then
        ds.upstreamDatabases.foldl (fun acc db =>
          if optTruthy db.connectionType then
            acc ++ [{ datasource_id := ds.id.getD (""),
                      connection_id := db.connectionType.getD ("") }]
          else acc) acc
      else acc
    wb.embeddedDatasources.foldl dsStep (wb.upstreamDatasources.foldl dsStep acc)) []

/-! ## Concrete scenario of claim C1 -/

/-- The SalesDB database node of the concrete scenario. -/
def salesDb : Database :=
  { name := some ("SalesDB"), connectionType := some ("PostgreSQL"),
    typename := some ("Database") }

/-- One workbook with two upstream datasources that both reference SalesDB. -/
def c1doc : RawData :=
  { workbooks :=
      [{ id := some ("W1"),
         upstreamDatasources :=
           [{ id := some ("ds1"), upstreamDatabases := [salesDb] },
            { id := some ("ds2"), upstreamDatabases := [salesDb] }] }] }

/-! ## Tag entity extractor

Embedding of get_tags in src/src/Transformations/list_tags.py.  The Python
source accumulates (id, name) pairs in a set and converts the set to a
list; since set iteration order is unspecified in Python, the set is
modelled as an insertion-ordered duplicate-free list, and only
order-independent facts are proved about the result. -/

/-- A Tag record with id and name. -/
structure TagRecord where
  id : String
  name : String
deriving Repr, DecidableEq

/-- Step of get_tags over one workbook: insert into the pair set the
(id, name) of every tag whose id and name are both truthy. -/
def tagsWbStep (acc : List (String × String)) (wb : Workbook) :
    List (String × String) :=
  wb.tags.foldl (fun acc tg =>
    if optTruthy tg.id && optTruthy tg.name then
      setInsert acc (tg.id.getD (""), tg.name.getD (""))
    else acc) acc

/-- Embedding of get_tags: collect the (id, name) pairs of tags whose id
and name are both truthy, deduplicated as a set, one record per pair. -/
def get_tags (raw : RawData) : List TagRecord :=
  (raw.workbooks.foldl tagsWbStep []).map (fun p => { id := p.1, name := p.2 })

/-! ## Datasource entity extractor

Embedding of get_datasources in src/src/Transformations/list_datasources.py.
The extract_last_refresh_time field keeps the raw string of the document
(the datetime parse of the source is not modelled; no claim concerns it);
the wall-clock created_at / updated_at stamps are omitted. -/

/-- A Datasource record as built by get_datasources. -/
structure DatasourceRecord where
  id : Option String
  name : Option String
  workbook_id : Option String
  path : String
  type : String
  has_extracts : Bool
  extract_last_refresh_time : Option String
deriving Repr, DecidableEq

/-- Record built by get_datasources for one datasource node of a workbook. -/
def datasourceRecord (wbId : Option String) (ty : String) (ds : DatasourceNode) :
    DatasourceRecord :=
  { id := ds.id, name := ds.name, workbook_id := wbId, path := ds.path.getD (""),
    type := ty, has_extracts := ds.hasExtracts,
    extract_last_refresh_time := ds.extractLastRefreshTime }

/-- Embedding of get_datasources: one record per datasource occurrence,
upstream then embedded, with no deduplication of any kind. -/
def get_datasources (raw : RawData) : List DatasourceRecord :=
  raw.workbooks.foldl (fun acc wb =>
    let up := wb.upstreamDatasources.foldl
      (fun a ds => a ++ [datasourceRecord wb.id ("upstream") ds]) acc
    wb.embeddedDatasources.foldl
      (fun a ds => a ++ [datasourceRecord wb.id ("embedded") ds]) up) []

/-! ## View entity extractor

Embedding of get_views in src/src/Transformations/list_views.py.  The url
field (built from external server configuration) and the parsed timestamp
fields are not modelled. -/

/-- A View record as built by get_views. -/
structure ViewRecord where
  id : Option String
  name : Option String
  workbook_id : Option String
  workbook_name : Option String
  path : String
  type : String
deriving Repr, DecidableEq

/-- Record built by get_views for one view node of a workbook; the type
field is the literal Dashboard, as in the source. -/
def viewRecord (wb : Workbook) (v : ViewNode) : ViewRecord :=
  { id := v.id, name := v.name, workbook_id := wb.id, workbook_name := wb.name,
    path := v.path.getD (""), type := "Dashboard" }

/-- Step of get_views over one workbook: append a record for every view
node whose typename equals Dashboard. -/
def viewsWbStep (acc : List ViewRecord) (wb : Workbook) : List ViewRecord :=
  wb.views.foldl (fun a v =>
    if v.typename = some ("Dashboard") then a ++ [viewRecord wb v] else a) acc

/-- Embedding of get_views: keep exactly the view nodes whose typename
equals Dashboard. -/
def get_views (raw : RawData) : List ViewRecord :=
  raw.workbooks.foldl viewsWbStep []

/-! ## Workbook-tag relation extractor

Embedding of get_workbook_tags in
src/src/Transformations/list_workbook_tags.py. -/

/-- A WorkbookTag relation row; tag_id is carried as found in the document,
even when missing. -/
structure WorkbookTagRow where
  workbook_id : String
  tag_id : Option String
deriving Repr, DecidableEq

/-- Step of get_workbook_tags over one workbook: when the workbook id is
truthy, append one row per tag node, with whatever id the tag node
carries; otherwise skip the whole workbook. -/
def wbTagsStep (acc : List WorkbookTagRow) (wb : Workbook) : List WorkbookTagRow :=
  if optTruthy wb.id then
    wb.tags.foldl (fun a tg =>
      a ++ [{ workbook_id := wb.id.getD (""), tag_id := tg.id }]) acc
  else acc

/-- Embedding of get_workbook_tags: for every workbook with a truthy id,
one row per tag node, with whatever id the tag node carries. -/
def get_workbook_tags (raw : RawData) : List WorkbookTagRow :=
  raw.workbooks.foldl wbTagsStep []

/-! ## Owner transformation of the new_code variant

Embedding of TableauDataTransformer.transform_users in
src/new_code/src/parser/transformations.py.  The Python source collects
the raw owner 4-tuples of all workbooks in a set and builds one record
per tuple, coercing falsy components (None or the empty string) to None
via the idiom value-or-None.  The wall-clock timestamp fields are
omitted; the set is modelled as an insertion-ordered duplicate-free
list. -/

/-- Coercion of the Python idiom value-or-None: empty strings become none. -/
def orNone : Option String → Option String
  | none => none
  | some s => if s.data.isEmpty then none else some s

/-- A User (owner) record as built by transform_users. -/
structure UserRecord where
  id : Option String
  name : Option String
  username : Option String
  email : Option String
deriving Repr, DecidableEq

/-- The raw owner 4-tuple of a workbook, as added to the set. -/
def ownerTuple (wb : Workbook) :
    Option String × Option String × Option String × Option String :=
  (wb.owner.id, wb.owner.name, wb.owner.username, wb.owner.email)

/-- The record built from one owner tuple. -/
def userRecordOfTuple
    (t : Option String × Option String × Option String × Option String) :
    UserRecord :=
  { id := orNone t.1, name := orNone t.2.1, username := orNone t.2.2.1,
    email := orNone t.2.2.2 }

/-- Embedding of transform_users: one record per distinct owner tuple,
owners without an id included. -/
def transform_users (raw : RawData) : List UserRecord :=
  (raw.workbooks.foldl (fun acc wb => setInsert acc (ownerTuple wb)) []).map
    userRecordOfTuple

/-! ## Workbook-view relation extractor

Embedding of get_workbook_views in
src/src/Transformations/list_workbook_views.py. -/

/-- A WorkbookView relation row. -/
structure WorkbookViewRow where
  workbook_id : String
  view_id : String
deriving Repr, DecidableEq

/-- Embedding of get_workbook_views: one row per view with a truthy id in a
workbook with a truthy id, deduplicated by the colon-joined key, ids
stripped on output. -/
def get_workbook_views (raw : RawData) : List WorkbookViewRow :=
  (raw.workbooks.foldl (fun (st : List String × List WorkbookViewRow) wb =>
    if optTruthy wb.id then
      wb.views.foldl (fun st v =>
        if optTruthy v.id then
          let key := wb.id.getD ("") ++ ":" ++ v.id.getD ("")
          if key ∈ st.1 then st
          else (st.1 ++ [key],
                st.2 ++ [{ workbook_id := pyStrip (wb.id.getD ("")),
                           view_id := pyStrip (v.id.getD ("")) }])
        else st) st
    else st) ([], [])).2

/-! ## Workbook-datasource relation extractor

Embedding of get_workbook_datasources in
src/src/Transformations/list_workbook_datasources.py. -/

/-- A WorkbookDatasource relation row. -/
structure WorkbookDatasourceRow where
  workbook_id : String
  datasource_id : String
deriving Repr, DecidableEq

/-- Embedding of get_workbook_datasources: one row per upstream or embedded
datasource with a truthy id in a workbook with a truthy id, deduplicated by
the colon-joined key, ids stripped on output. -/
def get_workbook_datasources (raw : RawData) : List WorkbookDatasourceRow :=
  (raw.workbooks.foldl (fun (st : List String × List WorkbookDatasourceRow) wb =>
    if optTruthy wb.id then
      let dsStep := fun (st : List String × List WorkbookDatasourceRow)
          (ds : DatasourceNode) =>
        if optTruthy ds.id then
          let key := wb.id.getD ("") ++ ":" ++ ds.id.getD ("")
          if key ∈ st.1 then st
          else (st.1 ++ [key],
                st.2 ++ [{ workbook_id := pyStrip (wb.id.getD ("")),
                           datasource_id := pyStrip (ds.id.getD ("")) }])
        else st
      wb.embeddedDatasources.foldl dsStep (wb.upstreamDatasources.foldl dsStep st)
    else st) ([], [])).2

/-! ## Workbook entity extractor

Embedding of get_workbooks in src/src/Transformations/list_workbooks.py.
The url field (built from external server configuration) is not modelled. -/

/-- A Workbook record as built by get_workbooks; all values are the string
defaults of the source dict. -/
structure WorkbookRecord where
  id : String
  name : String
  description : String
  owner_id : String
  project_id : String
  created_at : String
  updated_at : String
deriving Repr, DecidableEq

/-- The candidate record built for one workbook node. -/
def workbookRecord (wb : Workbook) : WorkbookRecord :=
  { id := wb.id.getD (""), name := wb.name.getD (""),
    description := wb.description.getD (""), owner_id := wb.owner.id.getD (""),
    project_id := wb.projectName.getD (""), created_at := wb.createdAt.getD (""),
    updated_at := wb.updatedAt.getD ("") }

/-- Embedding of get_workbooks: keep the candidates whose id and name are
both truthy (validate_workbook_data). -/
def get_workbooks (raw : RawData) : List WorkbookRecord :=
  raw.workbooks.foldl (fun acc wb =>
    let info := workbookRecord wb
    if strTruthy info.id && strTruthy info.name then acc ++ [info] else acc) []

/-- Modelled from the spec: get_users is imported by transform_all and by
generate_users_csv from src.Transformations.list_users, but no function of
that name exists in the repository.  Following spec sections 3 (Owner) and
4.2, an Owner record is created only when the owner node carries an id,
candidates without one are dropped, and candidates sharing an id are
deduplicated first-seen-wins. -/
def get_users (raw : RawData) : List UserRecord :=
  (raw.workbooks.foldl (fun (st : List String × List UserRecord) wb =>
    if optTruthy wb.owner.id then
      let uid := wb.owner.id.getD ("")
      if uid ∈ st.1 then st
      else (st.1 ++ [uid],
            st.2 ++ [{ id := wb.owner.id, name := wb.owner.name,
                       username := wb.owner.username, email := wb.owner.email }])
    else st) ([], [])).2

/-! ## Persisted CSV tables

A persisted table is an optional list of data rows (none when the file
does not exist); a row is the association list from column name to value
that csv.DictReader yields and csv.DictWriter consumes.  The header line
is not a data row.  Environment effects of each generator are explicit
parameters: cfg is the combined outcome of configuration loading,
file-settings validation and output-directory creation (the early Failed
returns of the source), and wr is the outcome of the file-write call
(the with-open block); when wr fails the persisted file is returned
unchanged (the source may leave a partial write, which no claim
concerns).  CSV columns holding wall-clock timestamps or
server-configuration URLs are not modelled. -/

/-- A CSV data row: column name to value, in column order. -/
abbrev CsvRow := List (String × String)

/-- Lookup of one column in a DictReader row, defaulting to the empty
string when the column is absent, as row.get(key, the-empty-string). -/
def rowGet (r : CsvRow) (k : String) : String :=
  ((r.find? (fun kv => decide (kv.1 = k))).map (fun kv => kv.2)).getD ("")

/-- Python str() of a value that may be None, as applied to these record
fields: None prints as the literal string None. -/
def pyStr : Option String → String
  | none => "None"
  | some s => s

/-! ### Connections table

Embedding of src/src/generate_csv/generate_connections_csv.py. -/

/-- Status dictionary of generate_connection_csv_from_config (the
file_path entry is not modelled). -/
structure ConnectionsCsvStatus where
  status : String
  total_connections : Nat
  processed_connections : Nat
  error_message : Option String
deriving Repr, DecidableEq

/-- Embedding of read_existing_connections: collect the composite keys of
the rows whose Connection_Name, Connection_Type and Connection_Target
columns are all nonempty after stripping.  The connections writer emits
the lower-case column names connection_name, connection_type and
connection_to, so on a file written by this module every lookup defaults
to the empty string. -/
def read_existing_connections : Option (List CsvRow) → List (String × String × String)
  | none => []
  | some rows => rows.foldl (fun acc row =>
      let k := (pyStrip (rowGet row ("Connection_Name")),
                pyStrip (rowGet row ("Connection_Type")),
                pyStrip (rowGet row ("Connection_Target")))
      if strTruthy k.1 && strTruthy k.2.1 && strTruthy k.2.2 then setInsert acc k
      else acc) []

/-- The row written for one connection, with the headers of the source. -/
def connectionCsvRow (c : Connection) : CsvRow :=
  [("connection_id", c.id), ("connection_name", c.name),
   ("connection_type", c.connection_type), ("connection_to", c.connects_to)]

/-- Ordering of the pre-write sort of the connections generator:
lower-cased name. -/
def connLowerLe (a b : Connection) : Prop :=
  strLeB (pyLower a.name) (pyLower b.name) = true

instance : DecidableRel connLowerLe := fun _ _ => instDecidableEqBool _ _

/-- Embedding of generate_connection_csv_from_config: read existing keys,
return Success untouched on an empty batch, otherwise sort by lower-cased
name, drop candidates whose composite key is in the existing set or
already seen in this batch, and append the remainder; an error of the
write call yields status Failed with the IOError message and the
processed count still zero. -/
def generate_connection_csv_from_config (cfg : Except String Unit)
    (file : Option (List CsvRow)) (incoming : List Connection)
    (wr : Except String Unit) : ConnectionsCsvStatus × Option (List CsvRow) :=
  match cfg with
  | .error e =>
      ({ status := "Failed", total_connections := 0, processed_connections := 0,
         error_message := some e }, file)
  | .ok _ =>
      let existing := read_existing_connections file
      if incoming.isEmpty then
        ({ status := "Success", total_connections := 0, processed_connections := 0,
           error_message := none }, file)
      else
        let sortedConns := List.insertionSort connLowerLe incoming
        let processed := (sortedConns.foldl
          (fun (st : List (String × String × String) × List CsvRow) c =>
            let key := (pyStrip c.name, pyStrip c.connection_type,
                        pyStrip c.connects_to)
            if key ∈ existing || key ∈ st.1 then st
            else (st.1 ++ [key], st.2 ++ [connectionCsvRow c])) ([], [])).2
        match wr with
        | .ok _ =>
            ({ status := "Success", total_connections := incoming.length,
               processed_connections := processed.length, error_message := none },
             some ((file.getD []) ++ processed))
        | .error e =>
            ({ status := "Failed", total_connections := incoming.length,
               processed_connections := 0,
               error_message := some ("IOError while writing CSV file: " ++ e) },
             file)

/-! ### Users table

Embedding of src/src/generate_csv/generate_users_csv.py: sort by
lower-cased name and append every record; no deduplication of any kind. -/

/-- The row written for one user record by process_user_data. -/
def userCsvRow (u : UserRecord) : CsvRow :=
  [("user_id", pyStr u.id), ("user_name", pyStr u.name),
   ("user_username", pyStr u.username), ("user_email", pyStr u.email)]

/-- Ordering of the pre-write sort of the users generator: lower-cased
name, absent names defaulting to the empty string. -/
def userLowerLe (a b : UserRecord) : Prop :=
  strLeB (pyLower (a.name.getD (""))) (pyLower (b.name.getD (""))) = true

instance : DecidableRel userLowerLe := fun _ _ => instDecidableEqBool _ _

/-- The pre-write stable sort of the users generator. -/
def sortUsersForCsv (l : List UserRecord) : List UserRecord :=
  List.insertionSort userLowerLe l

/-- Embedding of generate_users_csv_from_config, which returns only a
status string: Failed on configuration errors, Success untouched on an
empty batch, otherwise append all records sorted by lower-cased name,
Failed when the write call raises.  The sort key applies lower to the
raw name value inside the enclosing try block, so a record whose name is
None raises AttributeError there, which the block catches and turns into
Failed without touching the file. -/
def generate_users_csv_from_config (cfg : Except String Unit)
    (file : Option (List CsvRow)) (incoming : List UserRecord)
    (wr : Except String Unit) : String × Option (List CsvRow) :=
  match cfg with
  | .error _ => ("Failed", file)
  | .ok _ =>
      if incoming.isEmpty then ("Success", file)
      else if incoming.any (fun u => u.name.isNone) then ("Failed", file)
      else
        let rows := (sortUsersForCsv incoming).map userCsvRow
        match wr with
        | .ok _ => ("Success", some ((file.getD []) ++ rows))
        | .error _ => ("Failed", file)

/-! ### Datasources table

Embedding of src/src/generate_csv/generate_datasources_csv.py. -/

/-- Status dictionary of generate_datasources_csv_from_config (the
processing_time and file_path entries are not modelled). -/
structure DatasourcesCsvStatus where
  status : String
  processed_count : Nat
  skipped_count : Nat
  error_message : Option String
deriving Repr, DecidableEq

/-- Embedding of read_existing_datasources: the set of nonempty stripped
datasource_id column values. -/
def read_existing_datasources : Option (List CsvRow) → List String
  | none => []
  | some rows => rows.foldl (fun acc row =>
      let i := pyStrip (rowGet row ("datasource_id"))
      if strTruthy i then setInsert acc i else acc) []

/-- The row written for one datasource record (timestamp columns are not
modelled). -/
def datasourceCsvRow (ds : DatasourceRecord) : CsvRow :=
  [("datasource_id", pyStrip (pyStr ds.id)),
   ("datasource_name", pyStrip (pyStr ds.name)),
   ("datasource_type", pyStrip ds.type),
   ("datasource_has_extracts", if ds.has_extracts then "True" else "False")]

/-- Ordering of the pre-processing sort of the datasources generator:
lower-cased str of the id. -/
def dsIdLowerLe (a b : DatasourceRecord) : Prop :=
  strLeB (pyLower (pyStr a.id)) (pyLower (pyStr b.id)) = true

instance : DecidableRel dsIdLowerLe := fun _ _ => instDecidableEqBool _ _

/-- Processing loop of the datasources generator: sort by lower-cased id,
silently drop candidates whose stripped id is empty, count and drop
candidates whose id is already persisted or already seen, keep the rest.
Returns the rows to append and the skipped count. -/
def dsNewRows (existing : List String) (l : List DatasourceRecord) :
    List CsvRow × Nat :=
  let st := (List.insertionSort dsIdLowerLe l).foldl
    (fun (st : List String × List CsvRow × Nat) ds =>
      let i := pyStrip (pyStr ds.id)
      if !(strTruthy i) then st
      else if i ∈ existing || i ∈ st.1 then (st.1, st.2.1, st.2.2 + 1)
      else (st.1 ++ [i], st.2.1 ++ [datasourceCsvRow ds], st.2.2)) ([], [], 0)
  (st.2.1, st.2.2)

/-- Embedding of generate_datasources_csv_from_config: when nothing new
is to be written the generator returns Success without touching the file;
otherwise the write is attempted, and an IOError leaves status Failed
with the IOError message while processed_count already reflects the
processed rows (the source increments it during the loop). -/
def generate_datasources_csv_from_config (cfg : Except String Unit)
    (file : Option (List CsvRow)) (incoming : List DatasourceRecord)
    (wr : Except String Unit) : DatasourcesCsvStatus × Option (List CsvRow) :=
  match cfg with
  | .error e =>
      ({ status := "Failed", processed_count := 0, skipped_count := 0,
         error_message := some e }, file)
  | .ok _ =>
      let existing := read_existing_datasources file
      let pr := dsNewRows existing incoming
      if pr.1.isEmpty then
        ({ status := "Success", processed_count := 0, skipped_count := pr.2,
           error_message := some ("No new datasources to write to CSV") }, file)
      else
        match wr with
        | .ok _ =>
            ({ status := "Success", processed_count := pr.1.length,
               skipped_count := pr.2, error_message := none },
             some ((file.getD []) ++ pr.1))
        | .error e =>
            ({ status := "Failed", processed_count := pr.1.length,
               skipped_count := pr.2,
               error_message := some ("IOError while writing CSV file: " ++ e) },
             file)

/-! ### Tags table

Embedding of src/src/generate_csv/generate_tags_csv.py; deduplication is
keyed by the stripped tag name alone. -/

/-- Status dictionary of generate_tags_csv_from_config. -/
structure TagsCsvStatus where
  status : String
  total_tags : Nat
  processed_tags : Nat
  error_message : Option String
deriving Repr, DecidableEq

/-- Embedding of read_existing_tags: the set of nonempty stripped
tag_name column values. -/
def read_existing_tags : Option (List CsvRow) → List String
  | none => []
  | some rows => rows.foldl (fun acc row =>
      let n := pyStrip (rowGet row ("tag_name"))
      if strTruthy n then setInsert acc n else acc) []

/-- The row written for one tag record. -/
def tagCsvRow (t : TagRecord) : CsvRow :=
  [("tag_id", t.id), ("tag_name", pyStrip t.name)]

/-- Ordering of the pre-write sort of the tags generator: name in
code-point order. -/
def tagNameLe (a b : TagRecord) : Prop := strLeB a.name b.name = true

instance : DecidableRel tagNameLe := fun _ _ => instDecidableEqBool _ _

/-- Embedding of generate_tags_csv_from_config. -/
def generate_tags_csv_from_config (cfg : Except String Unit)
    (file : Option (List CsvRow)) (incoming : List TagRecord)
    (wr : Except String Unit) : TagsCsvStatus × Option (List CsvRow) :=
  match cfg with
  | .error e =>
      ({ status := "Failed", total_tags := 0, processed_tags := 0,
         error_message := some e }, file)
  | .ok _ =>
      let existing := read_existing_tags file
      if incoming.isEmpty then
        ({ status := "Success", total_tags := 0, processed_tags := 0,
           error_message := none }, file)
      else
        let processed := ((List.insertionSort tagNameLe incoming).foldl
          (fun (st : List String × List CsvRow) t =>
            let n := pyStrip t.name
            if n ∈ existing || n ∈ st.1 then st
            else (st.1 ++ [n], st.2 ++ [tagCsvRow t])) ([], [])).2
        match wr with
        | .ok _ =>
            ({ status := "Success", total_tags := incoming.length,
               processed_tags := processed.length, error_message := none },
             some ((file.getD []) ++ processed))
        | .error e =>
            ({ status := "Failed", total_tags := incoming.length,
               processed_tags := 0,
               error_message := some ("IOError while writing CSV file: " ++ e) },
             file)

/-! ### Views table

Embedding of src/src/generate_csv/generate_views_csv.py: no deduplication;
note that the source initializes the status dictionary to Success, so its
configuration-error early returns also report Success (a quirk kept by
this embedding).  Unlike every other generator, its pre-write sort sits
outside any try block and compares the raw name values with no str
coercion, so a batch holding a record whose name is None makes the sort
raise an uncaught TypeError; the Except result models that exception
escaping the function. -/

/-- Status dictionary of generate_views_csv_from_config. -/
structure ViewsCsvStatus where
  status : String
  total_views : Nat
  processed_views : Nat
  error_message : Option String
deriving Repr, DecidableEq

/-- The row written for one view record (timestamp and url columns are
not modelled). -/
def viewCsvRow (v : ViewRecord) : CsvRow :=
  [("view_id", pyStr v.id), ("view_name", pyStr v.name), ("view_type", v.type)]

/-- Ordering of the pre-write sort of the views generator: name in
code-point order.  The source compares the raw name values; on batches
that survive the TypeError test below every name is a string (or the
batch is a singleton and the order is vacuous), where this key agrees
with the raw comparison. -/
def viewNameLe (a b : ViewRecord) : Prop :=
  strLeB (pyStr a.name) (pyStr b.name) = true

instance : DecidableRel viewNameLe := fun _ _ => instDecidableEqBool _ _

/-- The condition under which the pre-write sort of the views generator
raises TypeError: at least two records (so at least one comparison runs;
the sort of CPython compares every adjacent pair while detecting runs)
and some record whose name is None (comparing None with anything
raises). -/
def viewsCrash (incoming : List ViewRecord) : Bool :=
  2 ≤ incoming.length && incoming.any (fun v => v.name.isNone)

/-- Embedding of generate_views_csv_from_config.  An error value is the
uncaught TypeError of the pre-write sort; every other path, config
errors and write errors included, returns normally. -/
def generate_views_csv_from_config (cfg : Except String Unit)
    (file : Option (List CsvRow)) (incoming : List ViewRecord)
    (wr : Except String Unit) :
    Except String (ViewsCsvStatus × Option (List CsvRow)) :=
  match cfg with
  | .error e =>
      .ok ({ status := "Success", total_views := 0, processed_views := 0,
             error_message := some e }, file)
  | .ok _ =>
      if incoming.isEmpty then
        .ok ({ status := "Success", total_views := 0, processed_views := 0,
               error_message := none }, file)
      else if viewsCrash incoming then
        .error ("TypeError: unorderable None in sort key")
      else
        let rows := (List.insertionSort viewNameLe incoming).map viewCsvRow
        match wr with
        | .ok _ =>
            .ok ({ status := "Success", total_views := incoming.length,
                   processed_views := rows.length, error_message := none },
                 some ((file.getD []) ++ rows))
        | .error e =>
            .ok ({ status := "Failed", total_views := incoming.length,
                   processed_views := 0,
                   error_message := some ("IOError while writing CSV file: " ++ e) },
                 file)

/-! ### Workbooks table

Embedding of src/src/generate_csv/generate_workbooks_csv.py, which
returns only a status string and writes row by row; one shared write
outcome models all the per-row write calls of one run, so a failing file
yields zero successful writes and the Partial status of the source. -/

/-- The row written for one workbook record by process_workbook_data
(the url column is not modelled). -/
def workbookCsvRow (w : WorkbookRecord) : CsvRow :=
  [("workbook_id", w.id), ("workbook_name", w.name),
   ("workbook_project_id", w.project_id), ("workbook_owner_id", w.owner_id),
   ("workbook_description", w.description),
   ("workbook_created_at", w.created_at), ("workbook_updated_at", w.updated_at)]

/-- Ordering of the pre-write sort of the workbooks generator:
lower-cased name. -/
def wbNameLowerLe (a b : WorkbookRecord) : Prop :=
  strLeB (pyLower a.name) (pyLower b.name) = true

instance : DecidableRel wbNameLowerLe := fun _ _ => instDecidableEqBool _ _

/-- Embedding of generate_workbooks_csv_from_config. -/
def generate_workbooks_csv_from_config (cfg : Except String Unit)
    (file : Option (List CsvRow)) (incoming : List WorkbookRecord)
    (wr : Except String Unit) : String × Option (List CsvRow) :=
  match cfg with
  | .error _ => ("Failed", file)
  | .ok _ =>
      if incoming.isEmpty then ("Success", file)
      else
        let rows := (List.insertionSort wbNameLowerLe incoming).map workbookCsvRow
        match wr with
        | .ok _ => ("Success", some ((file.getD []) ++ rows))
        | .error _ => ("Partial", file)

/-! ### Workbook-datasources relation table

Embedding of src/src/generate_csv/generate_workbooks_datasources_csv.py. -/

/-- Status dictionary of generate_workbook_datasources_csv_from_config. -/
structure RelationshipCsvStatus where
  status : String
  total_relationships : Nat
  processed_relationships : Nat
  skipped_relationships : Nat
  error_message : Option String
deriving Repr, DecidableEq

/-- Embedding of read_existing_relationships of the workbook-datasources
module: the set of colon-joined workbook_id and datasource_id column
values. -/
def read_existing_workbook_datasources : Option (List CsvRow) → List String
  | none => []
  | some rows => rows.foldl (fun acc row =>
      setInsert acc (rowGet row ("workbook_id") ++ ":" ++
        rowGet row ("datasource_id"))) []

/-- The row written for one workbook-datasource relation. -/
def workbookDatasourceCsvRow (r : WorkbookDatasourceRow) : CsvRow :=
  [("workbook_id", r.workbook_id), ("datasource_id", r.datasource_id)]

/-- Ordering of the pre-write sort of the workbook-datasources generator:
workbook_id in code-point order. -/
def wbdsKeyLe (a b : WorkbookDatasourceRow) : Prop :=
  strLeB a.workbook_id b.workbook_id = true

instance : DecidableRel wbdsKeyLe := fun _ _ => instDecidableEqBool _ _

/-- Embedding of generate_workbook_datasources_csv_from_config; the
duplicate filter inserts each kept key into the existing set, so the
batch is also deduplicated against itself. -/
def generate_workbook_datasources_csv_from_config (cfg : Except String Unit)
    (file : Option (List CsvRow)) (incoming : List WorkbookDatasourceRow)
    (wr : Except String Unit) : RelationshipCsvStatus × Option (List CsvRow) :=
  match cfg with
  | .error e =>
      ({ status := "Failed", total_relationships := incoming.length,
         processed_relationships := 0, skipped_relationships := 0,
         error_message := some e }, file)
  | .ok _ =>
      let existing := read_existing_workbook_datasources file
      if incoming.isEmpty then
        ({ status := "Success", total_relationships := 0,
           processed_relationships := 0, skipped_relationships := 0,
           error_message := some ("No relationships to process") }, file)
      else
        let st := incoming.foldl
          (fun (st : List String × List WorkbookDatasourceRow × Nat) r =>
            let key := r.workbook_id ++ ":" ++ r.datasource_id
            if key ∈ st.1 then (st.1, st.2.1, st.2.2 + 1)
            else (st.1 ++ [key], st.2.1 ++ [r], st.2.2)) (existing, [], 0)
        let newRels := st.2.1
        if newRels.isEmpty then
          ({ status := "Success", total_relationships := incoming.length,
             processed_relationships := 0, skipped_relationships := st.2.2,
             error_message := some ("All relationships already exist") }, file)
        else
          let rows := (List.insertionSort wbdsKeyLe newRels).map
            workbookDatasourceCsvRow
          match wr with
          | .ok _ =>
              ({ status := "Success", total_relationships := incoming.length,
                 processed_relationships := newRels.length,
                 skipped_relationships := st.2.2, error_message := none },
               some ((file.getD []) ++ rows))
          | .error e =>
              ({ status := "Failed", total_relationships := incoming.length,
                 processed_relationships := 0, skipped_relationships := st.2.2,
                 error_message := some ("Error writing CSV: " ++ e) }, file)

/-! ### Datasource-connections relation table

Embedding of src/src/generate_csv/generate_datasource_connections_csv.py,
which returns a dictionary of status and message strings. -/

/-- Status dictionary of generate_datasource_connections_csv_from_config. -/
structure DsConnCsvStatus where
  status : String
  message : String
deriving Repr, DecidableEq

/-- Embedding of read_existing_relationships of the datasource-connections
module: the set of colon-joined datasource_id and connection_id column
values. -/
def read_existing_datasource_connections : Option (List CsvRow) → List String
  | none => []
  | some rows => rows.foldl (fun acc row =>
      setInsert acc (rowGet row ("datasource_id") ++ ":" ++
        rowGet row ("connection_id"))) []

/-- The row written for one datasource-connection relation. -/
def datasourceConnectionCsvRow (r : DatasourceConnectionRow) : CsvRow :=
  [("datasource_id", r.datasource_id), ("connection_id", r.connection_id)]

/-- Ordering of the pre-write sort of the datasource-connections
generator: datasource_id in code-point order. -/
def dcKeyLe (a b : DatasourceConnectionRow) : Prop :=
  strLeB a.datasource_id b.datasource_id = true

instance : DecidableRel dcKeyLe := fun _ _ => instDecidableEqBool _ _

/-- Embedding of generate_datasource_connections_csv_from_config. -/
def generate_datasource_connections_csv_from_config (cfg : Except String Unit)
    (file : Option (List CsvRow)) (incoming : List DatasourceConnectionRow)
    (wr : Except String Unit) : DsConnCsvStatus × Option (List CsvRow) :=
  match cfg with
  | .error e => ({ status := "Failed", message := e }, file)
  | .ok _ =>
      let existing := read_existing_datasource_connections file
      if incoming.isEmpty then
        ({ status := "Success", message := "No new relationships to write" }, file)
      else
        let st := incoming.foldl
          (fun (st : List String × List DatasourceConnectionRow × Nat) r =>
            let key := r.datasource_id ++ ":" ++ r.connection_id
            if key ∈ st.1 then (st.1, st.2.1, st.2.2 + 1)
            else (st.1 ++ [key], st.2.1 ++ [r], st.2.2)) (existing, [], 0)
        let newRels := st.2.1
        if newRels.isEmpty then
          ({ status := "Success", message := "All relationships already exist" },
           file)
        else
          let rows := (List.insertionSort dcKeyLe newRels).map
            datasourceConnectionCsvRow
          match wr with
          | .ok _ =>
              ({ status := "Success", message := "Wrote new relationships" },
               some ((file.getD []) ++ rows))
          | .error e =>
              ({ status := "Failed", message := "Error writing CSV: " ++ e }, file)

/-- Modelled from the spec: generate_workbook_views_csv_from_config is
imported by transform_all from src.generate_csv.generate_workbooks_views_csv,
but no module of that name exists in the repository.  Following spec
section 4.4, the merge returns Success when the write succeeded or there
was nothing to write, and Failed when the write raised; no validation
against entity tables is performed. -/
def generate_workbook_views_csv_from_config (cfg : Except String Unit)
    (file : Option (List CsvRow)) (incoming : List WorkbookViewRow)
    (wr : Except String Unit) : String × Option (List CsvRow) :=
  match cfg with
  | .error _ => ("Failed", file)
  | .ok _ =>
      if incoming.isEmpty then ("Success", file)
      else
        match wr with
        | .ok _ =>
            ("Success", some ((file.getD []) ++ incoming.map (fun r =>
              [("workbook_id", r.workbook_id), ("view_id", r.view_id)])))
        | .error _ => ("Failed", file)

/-- Modelled from the spec: generate_workbook_tags_csv_from_config is
imported by transform_all from src.generate_csv.generate_workbooks_tags_csv,
but no module of that name exists in the repository.  Following spec
section 4.4, the merge returns Success when the write succeeded or there
was nothing to write, and Failed when the write raised; rows are written
as found, without validating tag ids against the tags table. -/
def generate_workbook_tags_csv_from_config (cfg : Except String Unit)
    (file : Option (List CsvRow)) (incoming : List WorkbookTagRow)
    (wr : Except String Unit) : String × Option (List CsvRow) :=
  match cfg with
  | .error _ => ("Failed", file)
  | .ok _ =>
      if incoming.isEmpty then ("Success", file)
      else
        match wr with
        | .ok _ =>
            ("Success", some ((file.getD []) ++ incoming.map (fun r =>
              [("workbook_id", r.workbook_id), ("tag_id", pyStr r.tag_id)])))
        | .error _ => ("Failed", file)

/-! ## Orchestrator

Embedding of transform_all in src/src/Transformations/transform_all.py.
Each of the ten tables is processed in the order of the source; a table
whose extracted data is empty keeps the initial Failed status of the
results dictionary, otherwise its status is the one returned by its CSV
generator.  The overall status is Success exactly when all ten statuses
are Success.  The environment of each table's merge layer (configuration
outcome, persisted file, write outcome) is an explicit per-table
parameter. -/

/-- Identifier of one persisted table. -/
inductive TableId
  | users
  | workbooks
  | views
  | tags
  | connections
  | datasources
  | datasource_connections
  | workbook_views
  | workbook_tags
  | workbook_datasources
deriving DecidableEq, Repr

instance : DecidableEq (Except String Unit) := fun a b =>
  match a, b with
  | .error e1, .error e2 =>
      if h : e1 = e2 then isTrue (by rw [h]) else isFalse (by
        intro hc
        exact h (by injection hc))
  | .error _, .ok _ => isFalse (by intro hc; exact Except.noConfusion hc)
  | .ok _, .error _ => isFalse (by intro hc; exact Except.noConfusion hc)
  | .ok (), .ok () => isTrue rfl

/-- Explicit environment of one table's merge layer. -/
structure MergeEnv where
  cfg : Except String Unit
  file : Option (List CsvRow)
  wr : Except String Unit
deriving DecidableEq

/-- The results dictionary of transform_all: one status string per table
plus the overall status. -/
structure RunResults where
  users_status : String
  workbooks_status : String
  views_status : String
  tags_status : String
  connections_status : String
  datasources_status : String
  workbook_views_status : String
  workbook_tags_status : String
  workbook_datasources_status : String
  datasource_connections_status : String
  overall_status : String
deriving Repr, DecidableEq

/-- Initial results dictionary: every entry Failed. -/
def initResults : RunResults :=
  { users_status := "Failed", workbooks_status := "Failed",
    views_status := "Failed", tags_status := "Failed",
    connections_status := "Failed", datasources_status := "Failed",
    workbook_views_status := "Failed", workbook_tags_status := "Failed",
    workbook_datasources_status := "Failed",
    datasource_connections_status := "Failed", overall_status := "Failed" }

/-- The ten per-table statuses, in the order the source aggregates them. -/
def statusList (r : RunResults) : List String :=
  [r.users_status, r.workbooks_status, r.views_status, r.tags_status,
   r.connections_status, r.datasources_status, r.workbook_views_status,
   r.workbook_tags_status, r.workbook_datasources_status,
   r.datasource_connections_status]

/-- Status of one table in the results dictionary. -/
def tableStatus (r : RunResults) : TableId → String
  | .users => r.users_status
  | .workbooks => r.workbooks_status
  | .views => r.views_status
  | .tags => r.tags_status
  | .connections => r.connections_status
  | .datasources => r.datasources_status
  | .datasource_connections => r.datasource_connections_status
  | .workbook_views => r.workbook_views_status
  | .workbook_tags => r.workbook_tags_status
  | .workbook_datasources => r.workbook_datasources_status

/-- Steps of transform_all from the tags table onward, starting from the
results accumulated through the views step: merge each nonempty extractor
result through its table's generator and set the overall status to
Success exactly when all ten statuses are Success. -/
def transform_all_rest (raw : RawData) (env : TableId → MergeEnv)
    (r3 : RunResults) : RunResults :=
  let tagsData := get_tags raw
  let r4 := if tagsData.isEmpty then r3 else
    { r3 with tags_status :=
        (generate_tags_csv_from_config (env .tags).cfg (env .tags).file
          tagsData (env .tags).wr).1.status }
  let connectionsData := get_connections raw
  let r5 := if connectionsData.isEmpty then r4 else
    { r4 with connections_status :=
        (generate_connection_csv_from_config (env .connections).cfg
          (env .connections).file connectionsData (env .connections).wr).1.status }
  let datasourcesData := get_datasources raw
  let r6 := if datasourcesData.isEmpty then r5 else
    { r5 with datasources_status :=
        (generate_datasources_csv_from_config (env .datasources).cfg
          (env .datasources).file datasourcesData (env .datasources).wr).1.status }
  let dcData := get_datasource_connections raw
  let r7 := if dcData.isEmpty then r6 else
    { r6 with datasource_connections_status :=
        (generate_datasource_connections_csv_from_config
          (env .datasource_connections).cfg (env .datasource_connections).file
          dcData (env .datasource_connections).wr).1.status }
  let wvData := get_workbook_views raw
  let r8 := if wvData.isEmpty then r7 else
    { r7 with workbook_views_status :=
        (generate_workbook_views_csv_from_config (env .workbook_views).cfg
          (env .workbook_views).file wvData (env .workbook_views).wr).1 }
  let wtData := get_workbook_tags raw
  let r9 := if wtData.isEmpty then r8 else
    { r8 with workbook_tags_status :=
        (generate_workbook_tags_csv_from_config (env .workbook_tags).cfg
          (env .workbook_tags).file wtData (env .workbook_tags).wr).1 }
  let wdData := get_workbook_datasources raw
  let r10 := if wdData.isEmpty then r9 else
    { r9 with workbook_datasources_status :=
        (generate_workbook_datasources_csv_from_config
          (env .workbook_datasources).cfg (env .workbook_datasources).file
          wdData (env .workbook_datasources).wr).1.status }
  { r10 with overall_status :=
      if (statusList r10).all (fun s => decide (s = "Success")) then "Success"
      else "Failed" }

/-- Steps 1 and 2 of transform_all: the results dictionary after the
users and workbooks tables, every other entry still at its initial
Failed. -/
def preViewsResults (raw : RawData) (env : TableId → MergeEnv) : RunResults :=
  let r0 := initResults
  let usersData := get_users raw
  let r1 := if usersData.isEmpty then r0 else
    { r0 with users_status :=
        (generate_users_csv_from_config (env .users).cfg (env .users).file
          usersData (env .users).wr).1 }
  let workbooksData := get_workbooks raw
  if workbooksData.isEmpty then r1 else
    { r1 with workbooks_status :=
        (generate_workbooks_csv_from_config (env .workbooks).cfg
          (env .workbooks).file workbooksData (env .workbooks).wr).1 }

/-- Embedding of transform_all: run every extractor in source order and
merge each nonempty result through its table's generator.  The views
generator alone can raise an uncaught TypeError (see above); the outer
try block of the source catches it and returns the results accumulated
so far, so on that path the remaining tables keep their initial Failed
status and the overall status is never recomputed. -/
def transform_all (raw : RawData) (env : TableId → MergeEnv) : RunResults :=
  let r2 := preViewsResults raw env
  let viewsData := get_views raw
  if viewsData.isEmpty then transform_all_rest raw env r2
  else
    match generate_views_csv_from_config (env .views).cfg (env .views).file
        viewsData (env .views).wr with
    | .error _ => r2
    | .ok st => transform_all_rest raw env { r2 with views_status := st.1.status }

/-- The run aborts at the views step exactly when the views generator
raises. -/
def viewsAborted (raw : RawData) (env : TableId → MergeEnv) : Bool :=
  !(get_views raw).isEmpty &&
    (match generate_views_csv_from_config (env .views).cfg (env .views).file
        (get_views raw) (env .views).wr with
     | .error _ => true
     | .ok _ => false)

/-- Status string the views step stores when the views generator returns
normally (never consulted on the abort path). -/
def viewsStepStatus (raw : RawData) (env : TableId → MergeEnv) : String :=
  match generate_views_csv_from_config (env .views).cfg (env .views).file
      (get_views raw) (env .views).wr with
  | .error _ => "Failed"
  | .ok st => st.1.status

/-! ## Concrete documents and environments used by individual claims -/

/-- A single Connection record matching the conn_0 of the C1 scenario,
used to exercise the merge twice. -/
def c2conn : Connection :=
  { id := "conn_0", name := "SalesDB", connection_type := "PostgreSQL",
    connects_to := "Database" }

/-- First merge of the C2 run: fresh store, successful write. -/
def c2run1 : ConnectionsCsvStatus × Option (List CsvRow) :=
  generate_connection_csv_from_config (.ok ()) none [c2conn] (.ok ())

/-- Second merge of the C2 run: same incoming batch against the file the
first run persisted. -/
def c2run2 : ConnectionsCsvStatus × Option (List CsvRow) :=
  generate_connection_csv_from_config (.ok ()) c2run1.2 [c2conn] (.ok ())

/-- Document whose connection names differ only in letter case order:
Beta sorts before alpha in code-point order but after it when compared
case-insensitively. -/
def c5doc : RawData :=
  { workbooks :=
      [{ id := some ("W1"),
         upstreamDatasources :=
           [{ id := some ("d1"),
              upstreamDatabases :=
                [{ name := some ("Beta"), connectionType := some ("T"),
                   typename := some ("DB") },
                 { name := some ("alpha"), connectionType := some ("T"),
                   typename := some ("DB") }] }] }] }

/-- Two workbooks that both carry an upstream datasource with the same
natural id. -/
def c6doc : RawData :=
  { workbooks :=
      [{ id := some ("w1"), upstreamDatasources := [{ id := some ("ds1") }] },
       { id := some ("w2"), upstreamDatasources := [{ id := some ("ds1") }] }] }

/-- One workbook whose owner node carries no id (and no other field). -/
def c7doc : RawData := { workbooks := [{ id := some ("W1") }] }

/-- One workbook with one tag node that has an id but no name, so the tag
entity extractor drops it. -/
def c9doc : RawData :=
  { workbooks := [{ id := some ("w1"), tags := [{ id := some ("t1") }] }] }

/-- One workbook with a Dashboard view and a Worksheet view. -/
def c10doc : RawData :=
  { workbooks :=
      [{ id := some ("W1"), name := some ("Book"),
         views := [{ id := some ("v1"), name := some ("D1"),
                     typename := some ("Dashboard") },
                   { id := some ("v2"), name := some ("S1"),
                     typename := some ("Worksheet") }] }] }

/-- The Dashboard record the view extractor emits on c10doc. -/
def c10view : ViewRecord :=
  viewRecord { id := some ("W1"), name := some ("Book"),
               views := [{ id := some ("v1"), name := some ("D1"),
                           typename := some ("Dashboard") },
                         { id := some ("v2"), name := some ("S1"),
                           typename := some ("Worksheet") }] }
    { id := some ("v1"), name := some ("D1"), typename := some ("Dashboard") }

/-- A document on which every one of the ten extractors yields a nonempty
result: one workbook with an owner, a Dashboard view, a tag and an
upstream datasource referencing one database. -/
def c3doc : RawData :=
  { workbooks :=
      [{ id := some ("W1"), name := some ("Book"),
         owner := { id := some ("u1"), name := some ("Ann") },
         views := [{ id := some ("v1"), name := some ("D1"),
                     typename := some ("Dashboard") }],
         upstreamDatasources := [{ id := some ("ds1"),
                                   upstreamDatabases := [salesDb] }],
         tags := [{ id := some ("t1"), name := some ("gold") }] }] }

/-- Environment in which every table has a loadable configuration and a
fresh store, and only the datasources file is unwritable. -/
def c3env : TableId → MergeEnv := fun t =>
  { cfg := .ok (), file := none,
    wr := if t = TableId.datasources then .error ("disk full") else .ok () }

/-- Environment in which every table has a loadable configuration, a
fresh store and a writable file. -/
def allOkEnv : TableId → MergeEnv := fun _ =>
  { cfg := .ok (), file := none, wr := .ok () }

/-- A document on which every extractor yields nonempty data and the
views table holds two Dashboard views of which one has no name, so the
views generator's sort raises. -/
def c4doc : RawData :=
  { workbooks :=
      [{ id := some ("W1"), name := some ("Book"),
         owner := { id := some ("u1"), name := some ("Ann") },
         views := [{ id := some ("v1"), typename := some ("Dashboard") },
                   { id := some ("v2"), name := some ("D2"),
                     typename := some ("Dashboard") }],
         upstreamDatasources := [{ id := some ("ds1"),
                                   upstreamDatabases := [salesDb] }],
         tags := [{ id := some ("t1"), name := some ("gold") }] }] }

/-- Environment identical to the all-ok one except that the views table's
configuration fails to load. -/
def viewsCfgFailEnv : TableId → MergeEnv := fun t =>
  { cfg := if t = TableId.views then .error ("no config") else .ok (),
    file := none, wr := .ok () }

/-! ## Helper lemmas -/

/-- Preservation of an invariant along a left fold. -/
theorem foldlPreserve {α β : Type} (P : α → Prop) (f : α → β → α)
    (hf : ∀ x b, P x → P (f x b)) :
    ∀ (l : List β) (a : α), P a → P (l.foldl f a) := by
  intro l
  induction l with
  | nil => intro a h; exact h
  | cons b bs ih => intro a h; exact ih _ (hf _ _ h)

/-- Membership in a set-insert. -/
theorem mem_setInsert {α : Type} [DecidableEq α] {acc : List α} {x y : α} :
    y ∈ setInsert acc x ↔ y ∈ acc ∨ y = x := by
  unfold setInsert
  by_cases h : x ∈ acc
  · simp only [if_pos h]
    constructor
    · exact Or.inl
    · rintro (hy | rfl)
      · exact hy
      · exact h
  · simp [if_neg h]

/-- Set-inserts keep the accumulator duplicate-free. -/
theorem setInsert_nodup {α : Type} [DecidableEq α] {acc : List α} (h : acc.Nodup)
    (x : α) : (setInsert acc x).Nodup := by
  unfold setInsert
  by_cases hx : x ∈ acc
  · simpa [if_pos hx] using h
  · have hd : acc.Disjoint [x] := by
      intro a ha hb
      rw [List.mem_singleton] at hb
      subst hb
      exact hx ha
    simpa [if_neg hx] using List.Nodup.append h (List.nodup_singleton x) hd

/-- Membership in a fold of set-inserts of images. -/
theorem mem_foldl_setInsert {α β : Type} [DecidableEq α] (f : β → α) :
    ∀ (l : List β) (acc : List α) (a : α),
      (a ∈ l.foldl (fun acc b => setInsert acc (f b)) acc ↔
        a ∈ acc ∨ ∃ b ∈ l, f b = a) := by
  intro l
  induction l with
  | nil => intro acc a; simp
  | cons x xs ih =>
    intro acc a
    rw [List.foldl_cons, ih]
    rw [mem_setInsert]
    constructor
    · rintro ((h | rfl) | ⟨b, hb, rfl⟩)
      · exact Or.inl h
      · exact Or.inr ⟨x, List.mem_cons_self x xs, rfl⟩
      · exact Or.inr ⟨b, List.mem_cons_of_mem x hb, rfl⟩
    · rintro (h | ⟨b, hb, rfl⟩)
      · exact Or.inl (Or.inl h)
      · rcases List.mem_cons.mp hb with rfl | hb
        · exact Or.inl (Or.inr rfl)
        · exact Or.inr ⟨b, hb, rfl⟩

/-! ## Claim C1 -/

/-- C1, counterexample: on the scenario document the connection extractor
does yield the single record conn_0, but the two DatasourceConnection rows
carry connection_id PostgreSQL (the raw connectionType string), not conn_0,
so the relation extractor does not re-derive the synthetic-id mapping,
contrary to the claim. -/
theorem c1_relation_rows_not_conn0 :
    (get_connections c1doc).map Connection.id = ["conn_0"] ∧
    (get_datasource_connections c1doc).map DatasourceConnectionRow.connection_id
      = ["PostgreSQL", "PostgreSQL"] ∧
    ¬ (get_datasource_connections c1doc).map DatasourceConnectionRow.connection_id
      = ["conn_0", "conn_0"] := by
  decide

/-- C1, amended: on the scenario document the connection extractor yields
exactly one Connection record with id conn_0, and the relation extractor
yields exactly two DatasourceConnection rows for ds1 and ds2, but their
connection_id is the raw connectionType string PostgreSQL; the relation
extractor never consults the synthetic-id mapping of the entity
extractor. -/
theorem c1_scenario_outputs :
    get_connections c1doc =
      [{ id := "conn_0", name := "SalesDB", connection_type := "PostgreSQL",
         connects_to := "Database" }] ∧
    get_datasource_connections c1doc =
      [{ datasource_id := "ds1", connection_id := "PostgreSQL" },
       { datasource_id := "ds2", connection_id := "PostgreSQL" }] := by
  decide

/-! ## Claim C2 -/

/-- C2: running the connections merge twice with the same single-record
batch against an initially fresh store is not idempotent: the first run
persists one row, yet the existing-key read of the second run comes back
empty (it looks up the column names Connection_Name, Connection_Type and
Connection_Target, while the writer emitted connection_name,
connection_type and connection_to), so the second run reports one new
processed row again and the store grows to two identical data rows. -/
theorem c2_second_run_rewrites :
    c2run1.1.status = "Success" ∧
    c2run1.1.processed_connections = 1 ∧
    (c2run1.2.getD []).length = 1 ∧
    read_existing_connections c2run1.2 = [] ∧
    c2run2.1.status = "Success" ∧
    c2run2.1.processed_connections = 1 ∧
    (c2run2.2.getD []).length = 2 := by
  decide

/-! ## Claim C8 -/

/-- C8: for every table, merging an empty incoming batch under a loadable
configuration is a no-op: the persisted file is returned unchanged and the
status is Success with zero counts, whatever the file state and whatever
the write layer would have done. -/
theorem c8_empty_batch_noop (file : Option (List CsvRow)) (wr : Except String Unit) :
    generate_connection_csv_from_config (.ok ()) file [] wr =
      ({ status := "Success", total_connections := 0, processed_connections := 0,
         error_message := none }, file) ∧
    generate_users_csv_from_config (.ok ()) file [] wr = ("Success", file) ∧
    generate_views_csv_from_config (.ok ()) file [] wr =
      .ok ({ status := "Success", total_views := 0, processed_views := 0,
             error_message := none }, file) ∧
    generate_tags_csv_from_config (.ok ()) file [] wr =
      ({ status := "Success", total_tags := 0, processed_tags := 0,
         error_message := none }, file) ∧
    generate_workbooks_csv_from_config (.ok ()) file [] wr = ("Success", file) ∧
    generate_datasources_csv_from_config (.ok ()) file [] wr =
      ({ status := "Success", processed_count := 0, skipped_count := 0,
         error_message := some ("No new datasources to write to CSV") }, file) ∧
    generate_workbook_datasources_csv_from_config (.ok ()) file [] wr =
      ({ status := "Success", total_relationships := 0,
         processed_relationships := 0, skipped_relationships := 0,
         error_message := some ("No relationships to process") }, file) ∧
    generate_datasource_connections_csv_from_config (.ok ()) file [] wr =
      ({ status := "Success", message := "No new relationships to write" }, file) ∧
    generate_workbook_views_csv_from_config (.ok ()) file [] wr = ("Success", file) ∧
    generate_workbook_tags_csv_from_config (.ok ()) file [] wr = ("Success", file) :=
  ⟨rfl, rfl, rfl, rfl, rfl, rfl, rfl, rfl, rfl, rfl⟩

/-! ## Order lemmas for the code-point comparison -/

/-- Totality of the code-point comparison of character lists. -/
theorem charListLe_total : ∀ as bs : List Char,
    charListLe as bs = true ∨ charListLe bs as = true := by
  intro as
  induction as with
  | nil => intro bs; left; rfl
  | cons a as ih =>
    intro bs
    cases bs with
    | nil => right; rfl
    | cons b bs =>
      by_cases h1 : a.toNat < b.toNat
      · left
        simp [charListLe, h1]
      · by_cases h2 : b.toNat < a.toNat
        · right
          simp [charListLe, h2]
        · rcases ih bs with h | h
          · left; simp [charListLe, h1, h2, h]
          · right; simp [charListLe, h1, h2, h]

/-- Transitivity of the code-point comparison of character lists. -/
theorem charListLe_trans : ∀ as bs cs : List Char,
    charListLe as bs = true → charListLe bs cs = true →
    charListLe as cs = true := by
  intro as
  induction as with
  | nil => intro bs cs _ _; rfl
  | cons a as ih =>
    intro bs cs hab hbc
    cases bs with
    | nil => simp [charListLe] at hab
    | cons b bs =>
      cases cs with
      | nil => simp [charListLe] at hbc
      | cons c cs =>
        by_cases h1 : a.toNat < b.toNat <;> by_cases h2 : b.toNat < c.toNat
        · have h3 : a.toNat < c.toNat := lt_trans h1 h2
          simp [charListLe, h3]
        · by_cases h4 : c.toNat < b.toNat
          · simp [charListLe, h2, h4] at hbc
          · have h3 : a.toNat < c.toNat := by omega
            simp [charListLe, h3]
        · by_cases h4 : b.toNat < a.toNat
          · simp [charListLe, h1, h4] at hab
          · have h3 : a.toNat < c.toNat := by omega
            simp [charListLe, h3]
        · by_cases h4 : b.toNat < a.toNat
          · simp [charListLe, h1, h4] at hab
          · by_cases h5 : c.toNat < b.toNat
            · simp [charListLe, h2, h5] at hbc
            · have h6 : ¬ a.toNat < c.toNat := by omega
              have h7 : ¬ c.toNat < a.toNat := by omega
              have hab2 : charListLe as bs = true := by
                simpa [charListLe, h1, h4] using hab
              have hbc2 : charListLe bs cs = true := by
                simpa [charListLe, h2, h5] using hbc
              simp [charListLe, h6, h7, ih bs cs hab2 hbc2]

/-- Totality of the code-point comparison of strings. -/
theorem strLeB_total (a b : String) : strLeB a b = true ∨ strLeB b a = true :=
  charListLe_total a.data b.data

/-- Transitivity of the code-point comparison of strings. -/
theorem strLeB_trans {a b c : String} (h1 : strLeB a b = true)
    (h2 : strLeB b c = true) : strLeB a c = true :=
  charListLe_trans a.data b.data c.data h1 h2

instance : IsTotal Connection connLe := ⟨fun a b => strLeB_total a.name b.name⟩

instance : IsTrans Connection connLe := ⟨fun _ _ _ h1 h2 => strLeB_trans h1 h2⟩

instance : IsTotal UserRecord userLowerLe :=
  ⟨fun a b => strLeB_total (pyLower (a.name.getD (""))) (pyLower (b.name.getD ("")))⟩

instance : IsTrans UserRecord userLowerLe := ⟨fun _ _ _ h1 h2 => strLeB_trans h1 h2⟩

/-! ## Claim C5 -/

/-- C5, counterexample: on a document whose two surviving connections are
named Beta and alpha, the resolver output is Beta then alpha (code-point
order), which is not sorted case-insensitively, contrary to the claim. -/
theorem c5_not_case_insensitive :
    (get_connections c5doc).map Connection.name = ["Beta", "alpha"] ∧
    ¬ List.Sorted connLowerLe (get_connections c5doc) := by
  constructor
  · decide
  · decide

/-- C5, amended: after deduplication the connection extractor sorts the
surviving records by their name in case-sensitive code-point order, while
the users CSV generator sorts records by lower-cased name; in both, ties
keep the stable order of the sort rather than an id tie-break.  The
output order is a pure function of the input, hence identical across
repeated runs. -/
theorem c5_resolver_sort_order (raw : RawData) (users : List UserRecord) :
    List.Sorted connLe (get_connections raw) ∧
    List.Sorted userLowerLe (sortUsersForCsv users) := by
  constructor
  · unfold get_connections
    exact List.sorted_insertionSort connLe _
  · unfold sortUsersForCsv
    exact List.sorted_insertionSort userLowerLe _

/-! ## Claim C6 -/

/-- Invariant of the get_connections fold: every accumulated record's
composite key is in the seen set, and the accumulated keys are pairwise
distinct. -/
def ConnInv (st : List (String × String × String) × List Connection) : Prop :=
  (∀ c ∈ st.2, connCompKey c ∈ st.1) ∧ (st.2.map connCompKey).Nodup

/-- connStep preserves the connection invariant. -/
theorem connStep_inv :
    ∀ (st : List (String × String × String) × List Connection) (db : Database),
      ConnInv st → ConnInv (connStep st db) := by
  intro st db h
  obtain ⟨hmem, hnd⟩ := h
  unfold connStep
  by_cases h1 : (strTruthy (dbKey db).1 && strTruthy (dbKey db).2.1 &&
      strTruthy (dbKey db).2.2) = true
  · rw [if_pos h1]
    by_cases h2 : dbKey db ∈ st.1
    · rw [if_pos h2]
      exact ⟨hmem, hnd⟩
    · rw [if_neg h2]
      constructor
      · intro c hc
        rcases List.mem_append.mp hc with hc | hc
        · exact List.mem_append.mpr (Or.inl (hmem c hc))
        · rw [List.mem_singleton] at hc
          subst hc
          refine List.mem_append.mpr (Or.inr ?_)
          simp [connCompKey]
      · rw [List.map_append]
        refine List.Nodup.append hnd (List.nodup_singleton _) ?_
        intro k hk hk2
        simp only [List.map_cons, List.map_nil, List.mem_singleton] at hk2
        apply h2
        have : k ∈ st.1 := by
          rcases List.mem_map.mp hk with ⟨c, hc, rfl⟩
          exact hmem c hc
        rw [hk2] at this
        simpa [connCompKey] using this
  · rw [if_neg h1]
    exact ⟨hmem, hnd⟩

/-- The composite keys of the records accumulated by the get_connections
fold are pairwise distinct. -/
theorem get_connections_keys_nodup (raw : RawData) :
    ((get_connections raw).map connCompKey).Nodup := by
  have hds : ∀ st (ds : DatasourceNode), ConnInv st → ConnInv (connDsStep st ds) := by
    intro st ds hst
    unfold connDsStep
    exact foldlPreserve ConnInv connStep connStep_inv _ _ hst
  have hwb : ∀ st (wb : Workbook), ConnInv st → ConnInv (connWbStep st wb) := by
    intro st wb hst
    unfold connWbStep
    exact foldlPreserve ConnInv connDsStep hds _ _
      (foldlPreserve ConnInv connDsStep hds _ _ hst)
  have hP : ConnInv (raw.workbooks.foldl connWbStep ([], [])) := by
    refine foldlPreserve ConnInv connWbStep hwb _ _ ?_
    exact ⟨fun c hc => absurd hc (List.not_mem_nil c), List.nodup_nil⟩
  have hperm :
      (List.insertionSort connLe
        ((raw.workbooks.foldl connWbStep ([], [])).2)).Perm
      ((raw.workbooks.foldl connWbStep ([], [])).2) :=
    List.perm_insertionSort _ _
  unfold get_connections
  exact ((hperm.map connCompKey).nodup_iff).mpr hP.2

/-- The (id, name) pairs of the records emitted by get_tags are pairwise
distinct. -/
theorem get_tags_pairs_nodup (raw : RawData) :
    ((get_tags raw).map (fun t => (t.id, t.name))).Nodup := by
  have h : (raw.workbooks.foldl tagsWbStep []).Nodup := by
    refine foldlPreserve (fun l => l.Nodup) tagsWbStep ?_ _ _ List.nodup_nil
    intro x wb hx
    unfold tagsWbStep
    refine foldlPreserve (fun l : List (String × String) => l.Nodup) _ ?_ _ _ hx
    intro y tg hy
    by_cases hc : (optTruthy tg.id && optTruthy tg.name) = true
    · rw [if_pos hc]
      exact setInsert_nodup hy _
    · rw [if_neg hc]
      exact hy
  unfold get_tags
  rw [List.map_map]
  have hcomp : ((fun t : TagRecord => (t.id, t.name)) ∘
      (fun p : String × String => ({ id := p.1, name := p.2 } : TagRecord))) = id := by
    funext p
    simp
  rw [hcomp, List.map_id]
  exact h

/-- C6, counterexample: two workbooks each carrying an upstream datasource
with the same natural id make the datasource extractor emit two records
that share that id — the extractor performs no deduplication, contrary to
the claim. -/
theorem c6_datasources_share_id :
    (get_datasources c6doc).map DatasourceRecord.id = [some ("ds1"), some ("ds1")] ∧
    ¬ ((get_datasources c6doc).map DatasourceRecord.id).Nodup := by
  decide

/-- C6, amended: within one run, deduplication holds only for the
connection and tag extractors — no two connection records share their
composite key, and no two tag records share their (id, name) pair (the
tag key is the pair, not the id alone) — while the datasource extractor
emits one record per occurrence, so its records may share an id. -/
theorem c6_dedup_scope (raw : RawData) :
    ((get_connections raw).map connCompKey).Nodup ∧
    ((get_tags raw).map (fun t => (t.id, t.name))).Nodup :=
  ⟨get_connections_keys_nodup raw, get_tags_pairs_nodup raw⟩

/-! ## Claim C7 -/

/-- Membership characterization of transform_users: the emitted records
are exactly the coerced owner tuples of the workbooks. -/
theorem transform_users_mem (raw : RawData) (u : UserRecord) :
    u ∈ transform_users raw ↔
      ∃ wb ∈ raw.workbooks, u = userRecordOfTuple (ownerTuple wb) := by
  unfold transform_users
  rw [List.mem_map]
  constructor
  · rintro ⟨t, ht, rfl⟩
    rw [mem_foldl_setInsert ownerTuple raw.workbooks [] t] at ht
    rcases ht with h | ⟨wb, hwb, rfl⟩
    · exact absurd h (List.not_mem_nil t)
    · exact ⟨wb, hwb, rfl⟩
  · rintro ⟨wb, hwb, rfl⟩
    exact ⟨ownerTuple wb,
      (mem_foldl_setInsert ownerTuple raw.workbooks [] (ownerTuple wb)).mpr
        (Or.inr ⟨wb, hwb, rfl⟩), rfl⟩

/-- C7, counterexample: a workbook whose owner carries no id still yields
an Owner record — with id none — rather than being dropped, contrary to
the claim. -/
theorem c7_ownerless_record_emitted :
    transform_users c7doc =
      [{ id := none, name := none, username := none, email := none }] ∧
    ¬ transform_users c7doc = [] := by
  decide

/-- C7, amended: transform_users drops no owner candidate: it emits one
record per distinct raw owner tuple, owners without an id included (their
id field is null, empty strings coerced to null), and never synthesizes an
id — every emitted record is exactly the coerced owner tuple of some
workbook, and every workbook's owner tuple is emitted. -/
theorem c7_owner_records (raw : RawData) :
    (∀ u ∈ transform_users raw, ∃ wb ∈ raw.workbooks,
        u = userRecordOfTuple (ownerTuple wb)) ∧
    (∀ wb ∈ raw.workbooks,
        userRecordOfTuple (ownerTuple wb) ∈ transform_users raw) := by
  constructor
  · intro u hu
    exact (transform_users_mem raw u).mp hu
  · intro wb hwb
    exact (transform_users_mem raw _).mpr ⟨wb, hwb, rfl⟩

/-- C7, witness: on the one-workbook document with an ownerless workbook,
the owner tuple record is emitted. -/
theorem c7_owner_records_witness :
    userRecordOfTuple (ownerTuple { id := some ("W1") }) ∈ transform_users c7doc :=
  (c7_owner_records c7doc).2 { id := some ("W1") } (by decide)

/-! ## Claim C9 -/

/-- The image of a list member is in the fold that appends every image. -/
theorem mem_foldl_append_self {α β : Type} (g : β → α) (x : β) :
    ∀ (l : List β) (acc : List α), x ∈ l →
      g x ∈ l.foldl (fun a b => a ++ [g b]) acc := by
  intro l
  induction l with
  | nil => intro acc h; exact absurd h (List.not_mem_nil x)
  | cons y ys ih =>
    intro acc h
    rw [List.foldl_cons]
    rcases List.mem_cons.mp h with rfl | h
    · refine foldlPreserve (fun s => g x ∈ s) _ ?_ ys _
        (List.mem_append.mpr (Or.inr (List.mem_singleton_self _)))
      intro s b hs
      exact List.mem_append.mpr (Or.inl hs)
    · exact ih _ h

/-- wbTagsStep only extends its accumulator. -/
theorem wbTagsStep_mono (a : WorkbookTagRow) :
    ∀ (s : List WorkbookTagRow) (wb : Workbook), a ∈ s → a ∈ wbTagsStep s wb := by
  intro s wb hs
  unfold wbTagsStep
  by_cases h : optTruthy wb.id = true
  · rw [if_pos h]
    refine foldlPreserve (fun s => a ∈ s) _ ?_ _ _ hs
    intro s2 tg hs2
    exact List.mem_append.mpr (Or.inl hs2)
  · rw [if_neg h]
    exact hs

/-- A workbook-tag relation row is emitted for every tag node of every
workbook whose id is truthy, irrespective of the tag's name. -/
theorem workbook_tag_row_emitted (raw : RawData) (wb : Workbook) (tg : TagNode)
    (hwb : wb ∈ raw.workbooks) (hid : optTruthy wb.id = true) (htg : tg ∈ wb.tags) :
    ({ workbook_id := wb.id.getD (""), tag_id := tg.id } : WorkbookTagRow) ∈
      get_workbook_tags raw := by
  unfold get_workbook_tags
  suffices h : ∀ (l : List Workbook) (acc : List WorkbookTagRow), wb ∈ l →
      ({ workbook_id := wb.id.getD (""), tag_id := tg.id } : WorkbookTagRow) ∈
        l.foldl wbTagsStep acc from h raw.workbooks [] hwb
  intro l
  induction l with
  | nil => intro acc h; exact absurd h (List.not_mem_nil wb)
  | cons w ws ih =>
    intro acc hmem
    rw [List.foldl_cons]
    rcases List.mem_cons.mp hmem with rfl | hmem
    · have hrow : ({ workbook_id := wb.id.getD (""), tag_id := tg.id } :
          WorkbookTagRow) ∈ wbTagsStep acc wb := by
        unfold wbTagsStep
        rw [if_pos hid]
        exact mem_foldl_append_self
          (fun t => ({ workbook_id := wb.id.getD (""), tag_id := t.id } :
            WorkbookTagRow)) tg wb.tags acc htg
      exact foldlPreserve (fun s => _ ∈ s) wbTagsStep
        (fun s w2 hs => wbTagsStep_mono _ s w2 hs) ws _ hrow
    · exact ih _ hmem

/-- C9: a workbook-tag relation row is emitted for every tag node of every
workbook whose id is truthy, irrespective of the tag's name and of
whether the tag entity extractor kept or dropped the tag, and the merge
layer writes the row out without any validation against the entity
tables. -/
theorem c9_orphan_tag_relation (raw : RawData) (wb : Workbook) (tg : TagNode)
    (hwb : wb ∈ raw.workbooks) (hid : optTruthy wb.id = true) (htg : tg ∈ wb.tags) :
    ({ workbook_id := wb.id.getD (""), tag_id := tg.id } : WorkbookTagRow) ∈
      get_workbook_tags raw ∧
    ∀ file : Option (List CsvRow),
      ([("workbook_id", wb.id.getD ("")), ("tag_id", pyStr tg.id)] : CsvRow) ∈
        ((generate_workbook_tags_csv_from_config (.ok ()) file
          (get_workbook_tags raw) (.ok ())).2.getD []) := by
  have hrow := workbook_tag_row_emitted raw wb tg hwb hid htg
  refine ⟨hrow, ?_⟩
  intro file
  have hne : (get_workbook_tags raw).isEmpty = false := by
    cases hgw : get_workbook_tags raw
    · rw [hgw] at hrow
      exact absurd hrow (List.not_mem_nil _)
    · rfl
  unfold generate_workbook_tags_csv_from_config
  simp only [hne, Bool.false_eq_true, if_false, Option.getD_some]
  exact List.mem_append.mpr (Or.inr (List.mem_map.mpr ⟨_, hrow, rfl⟩))

/-- C9, witness: on the document whose only tag has an id but no name, the
tag entity extractor emits nothing, yet the workbook-tag relation row is
emitted and written. -/
theorem c9_orphan_tag_relation_witness :
    get_tags c9doc = [] ∧
    (({ workbook_id := "w1", tag_id := some ("t1") } : WorkbookTagRow) ∈
        get_workbook_tags c9doc ∧
      ∀ file : Option (List CsvRow),
        ([("workbook_id", "w1"), ("tag_id", pyStr (some ("t1")))] : CsvRow) ∈
          ((generate_workbook_tags_csv_from_config (.ok ()) file
            (get_workbook_tags c9doc) (.ok ())).2.getD [])) :=
  ⟨by decide,
   c9_orphan_tag_relation c9doc
     { id := some ("w1"), tags := [{ id := some ("t1") }] }
     { id := some ("t1") } (by decide) (by decide) (by decide)⟩

/-! ## Claim C10 -/

/-- Membership in a fold that appends the image of the elements satisfying
a predicate. -/
theorem mem_foldl_condAppend {α β : Type} (p : β → Prop) [DecidablePred p]
    (g : β → α) :
    ∀ (l : List β) (acc : List α) (a : α),
      (a ∈ l.foldl (fun acc b => if p b then acc ++ [g b] else acc) acc ↔
        a ∈ acc ∨ ∃ b ∈ l, p b ∧ g b = a) := by
  intro l
  induction l with
  | nil => intro acc a; simp
  | cons x xs ih =>
    intro acc a
    rw [List.foldl_cons]
    by_cases hp : p x
    · rw [if_pos hp, ih]
      constructor
      · rintro (h | ⟨b, hb, hpb, rfl⟩)
        · rcases List.mem_append.mp h with h | h
          · exact Or.inl h
          · rw [List.mem_singleton] at h
            exact Or.inr ⟨x, List.mem_cons_self x xs, hp, h.symm⟩
        · exact Or.inr ⟨b, List.mem_cons_of_mem x hb, hpb, rfl⟩
      · rintro (h | ⟨b, hb, hpb, rfl⟩)
        · exact Or.inl (List.mem_append.mpr (Or.inl h))
        · rcases List.mem_cons.mp hb with rfl | hb
          · exact Or.inl (List.mem_append.mpr (Or.inr (List.mem_singleton_self _)))
          · exact Or.inr ⟨b, hb, hpb, rfl⟩
    · rw [if_neg hp, ih]
      constructor
      · rintro (h | ⟨b, hb, hpb, rfl⟩)
        · exact Or.inl h
        · exact Or.inr ⟨b, List.mem_cons_of_mem x hb, hpb, rfl⟩
      · rintro (h | ⟨b, hb, hpb, rfl⟩)
        · exact Or.inl h
        · rcases List.mem_cons.mp hb with rfl | hb
          · exact absurd hpb hp
          · exact Or.inr ⟨b, hb, hpb, rfl⟩

/-- Membership characterization of the get_views fold. -/
theorem mem_get_views_aux (a : ViewRecord) :
    ∀ (l : List Workbook) (acc : List ViewRecord),
      (a ∈ l.foldl viewsWbStep acc ↔
        a ∈ acc ∨ ∃ wb ∈ l, ∃ v ∈ wb.views,
          v.typename = some ("Dashboard") ∧ viewRecord wb v = a) := by
  intro l
  induction l with
  | nil => intro acc; simp
  | cons w ws ih =>
    intro acc
    rw [List.foldl_cons, ih]
    unfold viewsWbStep
    rw [mem_foldl_condAppend (fun v : ViewNode => v.typename = some ("Dashboard"))
      (viewRecord w) w.views acc a]
    constructor
    · rintro ((h | ⟨v, hv, hty, rfl⟩) | ⟨wb, hwb, v, hv, hty, rfl⟩)
      · exact Or.inl h
      · exact Or.inr ⟨w, List.mem_cons_self w ws, v, hv, hty, rfl⟩
      · exact Or.inr ⟨wb, List.mem_cons_of_mem w hwb, v, hv, hty, rfl⟩
    · rintro (h | ⟨wb, hwb, v, hv, hty, rfl⟩)
      · exact Or.inl (Or.inl h)
      · rcases List.mem_cons.mp hwb with rfl | hwb
        · exact Or.inl (Or.inr ⟨v, hv, hty, rfl⟩)
        · exact Or.inr ⟨wb, hwb, v, hv, hty, rfl⟩

/-- C10: every record emitted by the view extractor has type Dashboard and
stems from a view node whose typename is Dashboard; view nodes of any
other typename never appear in the output. -/
theorem c10_views_only_dashboards (raw : RawData) (v : ViewRecord)
    (hv : v ∈ get_views raw) :
    v.type = "Dashboard" ∧
    ∃ wb ∈ raw.workbooks, ∃ vn ∈ wb.views,
      vn.typename = some ("Dashboard") ∧ v = viewRecord wb vn := by
  unfold get_views at hv
  rcases (mem_get_views_aux v raw.workbooks []).mp hv with h | ⟨wb, hwb, vn, hvn, hty, rfl⟩
  · exact absurd h (List.not_mem_nil v)
  · exact ⟨rfl, wb, hwb, vn, hvn, hty, rfl⟩

/-- C10, witness: on a document with one Dashboard view and one Worksheet
view, the extracted Dashboard record is characterized by the theorem. -/
theorem c10_views_only_dashboards_witness :
    c10view.type = "Dashboard" ∧
    ∃ wb ∈ c10doc.workbooks, ∃ vn ∈ wb.views,
      vn.typename = some ("Dashboard") ∧ c10view = viewRecord wb vn :=
  c10_views_only_dashboards c10doc c10view (by decide)

/-! ## Orchestrator lemmas -/

/-- Users status of the pre-views results. -/
theorem preViews_users (raw : RawData) (env : TableId → MergeEnv) :
    (preViewsResults raw env).users_status =
      if (get_users raw).isEmpty then "Failed"
      else (generate_users_csv_from_config (env .users).cfg (env .users).file
        (get_users raw) (env .users).wr).1 := by
  simp only [preViewsResults, apply_ite RunResults.users_status, ite_self,
    initResults]

/-- Workbooks status of the pre-views results. -/
theorem preViews_workbooks (raw : RawData) (env : TableId → MergeEnv) :
    (preViewsResults raw env).workbooks_status =
      if (get_workbooks raw).isEmpty then "Failed"
      else (generate_workbooks_csv_from_config (env .workbooks).cfg
        (env .workbooks).file (get_workbooks raw) (env .workbooks).wr).1 := by
  simp only [preViewsResults, apply_ite RunResults.workbooks_status, ite_self,
    initResults]

/-- Every entry of the pre-views results from the views table on is still
at its initial Failed, the overall status included. -/
theorem preViews_rest_failed (raw : RawData) (env : TableId → MergeEnv) :
    (preViewsResults raw env).views_status = "Failed" ∧
    (preViewsResults raw env).tags_status = "Failed" ∧
    (preViewsResults raw env).connections_status = "Failed" ∧
    (preViewsResults raw env).datasources_status = "Failed" ∧
    (preViewsResults raw env).datasource_connections_status = "Failed" ∧
    (preViewsResults raw env).workbook_views_status = "Failed" ∧
    (preViewsResults raw env).workbook_tags_status = "Failed" ∧
    (preViewsResults raw env).workbook_datasources_status = "Failed" ∧
    (preViewsResults raw env).overall_status = "Failed" := by
  refine ⟨?_, ?_, ?_, ?_, ?_, ?_, ?_, ?_, ?_⟩ <;>
    simp only [preViewsResults, apply_ite RunResults.views_status,
      apply_ite RunResults.tags_status, apply_ite RunResults.connections_status,
      apply_ite RunResults.datasources_status,
      apply_ite RunResults.datasource_connections_status,
      apply_ite RunResults.workbook_views_status,
      apply_ite RunResults.workbook_tags_status,
      apply_ite RunResults.workbook_datasources_status,
      apply_ite RunResults.overall_status, ite_self, initResults]

/-- The steps after views do not modify the users, workbooks or views
entries. -/
theorem rest_keeps_early (raw : RawData) (env : TableId → MergeEnv)
    (r3 : RunResults) :
    (transform_all_rest raw env r3).users_status = r3.users_status ∧
    (transform_all_rest raw env r3).workbooks_status = r3.workbooks_status ∧
    (transform_all_rest raw env r3).views_status = r3.views_status := by
  refine ⟨?_, ?_, ?_⟩ <;>
    simp only [transform_all_rest, apply_ite RunResults.users_status,
      apply_ite RunResults.workbooks_status, apply_ite RunResults.views_status,
      ite_self]

/-- Tags status of the post-views steps. -/
theorem rest_tags (raw : RawData) (env : TableId → MergeEnv) (r3 : RunResults) :
    (transform_all_rest raw env r3).tags_status =
      if (get_tags raw).isEmpty then r3.tags_status
      else (generate_tags_csv_from_config (env .tags).cfg (env .tags).file
        (get_tags raw) (env .tags).wr).1.status := by
  simp only [transform_all_rest, apply_ite RunResults.tags_status, ite_self]

/-- Connections status of the post-views steps. -/
theorem rest_connections (raw : RawData) (env : TableId → MergeEnv)
    (r3 : RunResults) :
    (transform_all_rest raw env r3).connections_status =
      if (get_connections raw).isEmpty then r3.connections_status
      else (generate_connection_csv_from_config (env .connections).cfg
        (env .connections).file (get_connections raw)
        (env .connections).wr).1.status := by
  simp only [transform_all_rest, apply_ite RunResults.connections_status,
    ite_self]

/-- Datasources status of the post-views steps. -/
theorem rest_datasources (raw : RawData) (env : TableId → MergeEnv)
    (r3 : RunResults) :
    (transform_all_rest raw env r3).datasources_status =
      if (get_datasources raw).isEmpty then r3.datasources_status
      else (generate_datasources_csv_from_config (env .datasources).cfg
        (env .datasources).file (get_datasources raw)
        (env .datasources).wr).1.status := by
  simp only [transform_all_rest, apply_ite RunResults.datasources_status,
    ite_self]

/-- Datasource-connections status of the post-views steps. -/
theorem rest_datasource_connections (raw : RawData) (env : TableId → MergeEnv)
    (r3 : RunResults) :
    (transform_all_rest raw env r3).datasource_connections_status =
      if (get_datasource_connections raw).isEmpty then
        r3.datasource_connections_status
      else (generate_datasource_connections_csv_from_config
        (env .datasource_connections).cfg (env .datasource_connections).file
        (get_datasource_connections raw)
        (env .datasource_connections).wr).1.status := by
  simp only [transform_all_rest,
    apply_ite RunResults.datasource_connections_status, ite_self]

/-- Workbook-views status of the post-views steps. -/
theorem rest_workbook_views (raw : RawData) (env : TableId → MergeEnv)
    (r3 : RunResults) :
    (transform_all_rest raw env r3).workbook_views_status =
      if (get_workbook_views raw).isEmpty then r3.workbook_views_status
      else (generate_workbook_views_csv_from_config (env .workbook_views).cfg
        (env .workbook_views).file (get_workbook_views raw)
        (env .workbook_views).wr).1 := by
  simp only [transform_all_rest, apply_ite RunResults.workbook_views_status,
    ite_self]

/-- Workbook-tags status of the post-views steps. -/
theorem rest_workbook_tags (raw : RawData) (env : TableId → MergeEnv)
    (r3 : RunResults) :
    (transform_all_rest raw env r3).workbook_tags_status =
      if (get_workbook_tags raw).isEmpty then r3.workbook_tags_status
      else (generate_workbook_tags_csv_from_config (env .workbook_tags).cfg
        (env .workbook_tags).file (get_workbook_tags raw)
        (env .workbook_tags).wr).1 := by
  simp only [transform_all_rest, apply_ite RunResults.workbook_tags_status,
    ite_self]

/-- Workbook-datasources status of the post-views steps. -/
theorem rest_workbook_datasources (raw : RawData) (env : TableId → MergeEnv)
    (r3 : RunResults) :
    (transform_all_rest raw env r3).workbook_datasources_status =
      if (get_workbook_datasources raw).isEmpty then
        r3.workbook_datasources_status
      else (generate_workbook_datasources_csv_from_config
        (env .workbook_datasources).cfg (env .workbook_datasources).file
        (get_workbook_datasources raw)
        (env .workbook_datasources).wr).1.status := by
  simp only [transform_all_rest,
    apply_ite RunResults.workbook_datasources_status, ite_self]

/-- Overall status of the post-views steps. -/
theorem rest_overall (raw : RawData) (env : TableId → MergeEnv)
    (r3 : RunResults) :
    (transform_all_rest raw env r3).overall_status =
      if (statusList (transform_all_rest raw env r3)).all
        (fun s => decide (s = "Success")) then "Success" else "Failed" := by
  rfl

/-- Every table status appears in the status list of the results. -/
theorem tableStatus_mem (r : RunResults) (t : TableId) :
    tableStatus r t ∈ statusList r := by
  cases t <;> simp [tableStatus, statusList]

/-- Case analysis of transform_all: either the views generator raises and
the pre-views results are returned as accumulated, or the remaining steps
run on the results extended with the views status. -/
theorem transform_all_cases (raw : RawData) (env : TableId → MergeEnv) :
    transform_all raw env =
      if viewsAborted raw env = true then preViewsResults raw env
      else transform_all_rest raw env
        (if (get_views raw).isEmpty then preViewsResults raw env
         else { preViewsResults raw env with
                views_status := viewsStepStatus raw env }) := by
  simp only [transform_all, viewsAborted, viewsStepStatus]
  by_cases hv : (get_views raw).isEmpty
  · simp [hv]
  · cases hg : generate_views_csv_from_config (env .views).cfg (env .views).file
        (get_views raw) (env .views).wr with
    | error e => simp [hv, hg]
    | ok st => simp [hv, hg]

/-- Users status of the record handed to the post-views steps. -/
theorem viewsInput_users (raw : RawData) (env : TableId → MergeEnv) :
    (if (get_views raw).isEmpty then preViewsResults raw env
     else { preViewsResults raw env with
            views_status := viewsStepStatus raw env }).users_status =
      (preViewsResults raw env).users_status := by
  by_cases hv : (get_views raw).isEmpty
  · rw [if_pos hv]
  · rw [if_neg hv]

/-- Workbooks status of the record handed to the post-views steps. -/
theorem viewsInput_workbooks (raw : RawData) (env : TableId → MergeEnv) :
    (if (get_views raw).isEmpty then preViewsResults raw env
     else { preViewsResults raw env with
            views_status := viewsStepStatus raw env }).workbooks_status =
      (preViewsResults raw env).workbooks_status := by
  by_cases hv : (get_views raw).isEmpty
  · rw [if_pos hv]
  · rw [if_neg hv]

/-- Views status of the record handed to the post-views steps. -/
theorem viewsInput_views (raw : RawData) (env : TableId → MergeEnv) :
    (if (get_views raw).isEmpty then preViewsResults raw env
     else { preViewsResults raw env with
            views_status := viewsStepStatus raw env }).views_status =
      if (get_views raw).isEmpty then "Failed" else viewsStepStatus raw env := by
  by_cases hv : (get_views raw).isEmpty
  · rw [if_pos hv, if_pos hv]
    exact (preViews_rest_failed raw env).1
  · rw [if_neg hv, if_neg hv]

/-- Tags status of the record handed to the post-views steps. -/
theorem viewsInput_tags (raw : RawData) (env : TableId → MergeEnv) :
    (if (get_views raw).isEmpty then preViewsResults raw env
     else { preViewsResults raw env with
            views_status := viewsStepStatus raw env }).tags_status
      = "Failed" := by
  by_cases hv : (get_views raw).isEmpty
  · rw [if_pos hv]
    exact (preViews_rest_failed raw env).2.1
  · rw [if_neg hv]
    exact (preViews_rest_failed raw env).2.1

/-- Connections status of the record handed to the post-views steps. -/
theorem viewsInput_connections (raw : RawData) (env : TableId → MergeEnv) :
    (if (get_views raw).isEmpty then preViewsResults raw env
     else { preViewsResults raw env with
            views_status := viewsStepStatus raw env }).connections_status
      = "Failed" := by
  by_cases hv : (get_views raw).isEmpty
  · rw [if_pos hv]
    exact (preViews_rest_failed raw env).2.2.1
  · rw [if_neg hv]
    exact (preViews_rest_failed raw env).2.2.1

/-- Datasources status of the record handed to the post-views steps. -/
theorem viewsInput_datasources (raw : RawData) (env : TableId → MergeEnv) :
    (if (get_views raw).isEmpty then preViewsResults raw env
     else { preViewsResults raw env with
            views_status := viewsStepStatus raw env }).datasources_status
      = "Failed" := by
  by_cases hv : (get_views raw).isEmpty
  · rw [if_pos hv]
    exact (preViews_rest_failed raw env).2.2.2.1
  · rw [if_neg hv]
    exact (preViews_rest_failed raw env).2.2.2.1

/-- Datasource-connections status of the record handed to the post-views
steps. -/
theorem viewsInput_datasource_connections (raw : RawData)
    (env : TableId → MergeEnv) :
    (if (get_views raw).isEmpty then preViewsResults raw env
     else { preViewsResults raw env with
            views_status := viewsStepStatus raw env
          }).datasource_connections_status = "Failed" := by
  by_cases hv : (get_views raw).isEmpty
  · rw [if_pos hv]
    exact (preViews_rest_failed raw env).2.2.2.2.1
  · rw [if_neg hv]
    exact (preViews_rest_failed raw env).2.2.2.2.1

/-- Workbook-views status of the record handed to the post-views steps. -/
theorem viewsInput_workbook_views (raw : RawData) (env : TableId → MergeEnv) :
    (if (get_views raw).isEmpty then preViewsResults raw env
     else { preViewsResults raw env with
            views_status := viewsStepStatus raw env }).workbook_views_status
      = "Failed" := by
  by_cases hv : (get_views raw).isEmpty
  · rw [if_pos hv]
    exact (preViews_rest_failed raw env).2.2.2.2.2.1
  · rw [if_neg hv]
    exact (preViews_rest_failed raw env).2.2.2.2.2.1

/-- Workbook-tags status of the record handed to the post-views steps. -/
theorem viewsInput_workbook_tags (raw : RawData) (env : TableId → MergeEnv) :
    (if (get_views raw).isEmpty then preViewsResults raw env
     else { preViewsResults raw env with
            views_status := viewsStepStatus raw env }).workbook_tags_status
      = "Failed" := by
  by_cases hv : (get_views raw).isEmpty
  · rw [if_pos hv]
    exact (preViews_rest_failed raw env).2.2.2.2.2.2.1
  · rw [if_neg hv]
    exact (preViews_rest_failed raw env).2.2.2.2.2.2.1

/-- Workbook-datasources status of the record handed to the post-views
steps. -/
theorem viewsInput_workbook_datasources (raw : RawData)
    (env : TableId → MergeEnv) :
    (if (get_views raw).isEmpty then preViewsResults raw env
     else { preViewsResults raw env with
            views_status := viewsStepStatus raw env
          }).workbook_datasources_status = "Failed" := by
  by_cases hv : (get_views raw).isEmpty
  · rw [if_pos hv]
    exact (preViews_rest_failed raw env).2.2.2.2.2.2.2.1
  · rw [if_neg hv]
    exact (preViews_rest_failed raw env).2.2.2.2.2.2.2.1

/-- Users table status of a run. -/
theorem transform_all_users (raw : RawData) (env : TableId → MergeEnv) :
    (transform_all raw env).users_status =
      if (get_users raw).isEmpty then "Failed"
      else (generate_users_csv_from_config (env .users).cfg (env .users).file
        (get_users raw) (env .users).wr).1 := by
  rw [transform_all_cases]
  by_cases ha : viewsAborted raw env = true
  · rw [if_pos ha, preViews_users]
  · rw [if_neg ha, (rest_keeps_early raw env _).1, viewsInput_users,
      preViews_users]

/-- Workbooks table status of a run. -/
theorem transform_all_workbooks (raw : RawData) (env : TableId → MergeEnv) :
    (transform_all raw env).workbooks_status =
      if (get_workbooks raw).isEmpty then "Failed"
      else (generate_workbooks_csv_from_config (env .workbooks).cfg
        (env .workbooks).file (get_workbooks raw) (env .workbooks).wr).1 := by
  rw [transform_all_cases]
  by_cases ha : viewsAborted raw env = true
  · rw [if_pos ha, preViews_workbooks]
  · rw [if_neg ha, (rest_keeps_early raw env _).2.1, viewsInput_workbooks,
      preViews_workbooks]

/-- Views table status of a run. -/
theorem transform_all_views (raw : RawData) (env : TableId → MergeEnv) :
    (transform_all raw env).views_status =
      if viewsAborted raw env = true then "Failed"
      else if (get_views raw).isEmpty then "Failed"
      else viewsStepStatus raw env := by
  rw [transform_all_cases]
  by_cases ha : viewsAborted raw env = true
  · rw [if_pos ha, if_pos ha, (preViews_rest_failed raw env).1]
  · rw [if_neg ha, if_neg ha, (rest_keeps_early raw env _).2.2,
      viewsInput_views]

/-- Tags table status of a run. -/
theorem transform_all_tags (raw : RawData) (env : TableId → MergeEnv) :
    (transform_all raw env).tags_status =
      if viewsAborted raw env = true then "Failed"
      else if (get_tags raw).isEmpty then "Failed"
      else (generate_tags_csv_from_config (env .tags).cfg (env .tags).file
        (get_tags raw) (env .tags).wr).1.status := by
  rw [transform_all_cases]
  by_cases ha : viewsAborted raw env = true
  · rw [if_pos ha, if_pos ha, (preViews_rest_failed raw env).2.1]
  · rw [if_neg ha, if_neg ha, rest_tags, viewsInput_tags]

/-- Connections table status of a run. -/
theorem transform_all_connections (raw : RawData) (env : TableId → MergeEnv) :
    (transform_all raw env).connections_status =
      if viewsAborted raw env = true then "Failed"
      else if (get_connections raw).isEmpty then "Failed"
      else (generate_connection_csv_from_config (env .connections).cfg
        (env .connections).file (get_connections raw)
        (env .connections).wr).1.status := by
  rw [transform_all_cases]
  by_cases ha : viewsAborted raw env = true
  · rw [if_pos ha, if_pos ha, (preViews_rest_failed raw env).2.2.1]
  · rw [if_neg ha, if_neg ha, rest_connections, viewsInput_connections]

/-- Datasources table status of a run. -/
theorem transform_all_datasources (raw : RawData) (env : TableId → MergeEnv) :
    (transform_all raw env).datasources_status =
      if viewsAborted raw env = true then "Failed"
      else if (get_datasources raw).isEmpty then "Failed"
      else (generate_datasources_csv_from_config (env .datasources).cfg
        (env .datasources).file (get_datasources raw)
        (env .datasources).wr).1.status := by
  rw [transform_all_cases]
  by_cases ha : viewsAborted raw env = true
  · rw [if_pos ha, if_pos ha, (preViews_rest_failed raw env).2.2.2.1]
  · rw [if_neg ha, if_neg ha, rest_datasources, viewsInput_datasources]

/-- Datasource-connections table status of a run. -/
theorem transform_all_datasource_connections (raw : RawData)
    (env : TableId → MergeEnv) :
    (transform_all raw env).datasource_connections_status =
      if viewsAborted raw env = true then "Failed"
      else if (get_datasource_connections raw).isEmpty then "Failed"
      else (generate_datasource_connections_csv_from_config
        (env .datasource_connections).cfg (env .datasource_connections).file
        (get_datasource_connections raw)
        (env .datasource_connections).wr).1.status := by
  rw [transform_all_cases]
  by_cases ha : viewsAborted raw env = true
  · rw [if_pos ha, if_pos ha, (preViews_rest_failed raw env).2.2.2.2.1]
  · rw [if_neg ha, if_neg ha, rest_datasource_connections,
      viewsInput_datasource_connections]

/-- Workbook-views table status of a run. -/
theorem transform_all_workbook_views (raw : RawData)
    (env : TableId → MergeEnv) :
    (transform_all raw env).workbook_views_status =
      if viewsAborted raw env = true then "Failed"
      else if (get_workbook_views raw).isEmpty then "Failed"
      else (generate_workbook_views_csv_from_config (env .workbook_views).cfg
        (env .workbook_views).file (get_workbook_views raw)
        (env .workbook_views).wr).1 := by
  rw [transform_all_cases]
  by_cases ha : viewsAborted raw env = true
  · rw [if_pos ha, if_pos ha, (preViews_rest_failed raw env).2.2.2.2.2.1]
  · rw [if_neg ha, if_neg ha, rest_workbook_views, viewsInput_workbook_views]

/-- Workbook-tags table status of a run. -/
theorem transform_all_workbook_tags (raw : RawData)
    (env : TableId → MergeEnv) :
    (transform_all raw env).workbook_tags_status =
      if viewsAborted raw env = true then "Failed"
      else if (get_workbook_tags raw).isEmpty then "Failed"
      else (generate_workbook_tags_csv_from_config (env .workbook_tags).cfg
        (env .workbook_tags).file (get_workbook_tags raw)
        (env .workbook_tags).wr).1 := by
  rw [transform_all_cases]
  by_cases ha : viewsAborted raw env = true
  · rw [if_pos ha, if_pos ha, (preViews_rest_failed raw env).2.2.2.2.2.2.1]
  · rw [if_neg ha, if_neg ha, rest_workbook_tags, viewsInput_workbook_tags]

/-- Workbook-datasources table status of a run. -/
theorem transform_all_workbook_datasources (raw : RawData)
    (env : TableId → MergeEnv) :
    (transform_all raw env).workbook_datasources_status =
      if viewsAborted raw env = true then "Failed"
      else if (get_workbook_datasources raw).isEmpty then "Failed"
      else (generate_workbook_datasources_csv_from_config
        (env .workbook_datasources).cfg (env .workbook_datasources).file
        (get_workbook_datasources raw)
        (env .workbook_datasources).wr).1.status := by
  rw [transform_all_cases]
  by_cases ha : viewsAborted raw env = true
  · rw [if_pos ha, if_pos ha, (preViews_rest_failed raw env).2.2.2.2.2.2.2.1]
  · rw [if_neg ha, if_neg ha, rest_workbook_datasources,
      viewsInput_workbook_datasources]

/-- The overall status of the post-views steps equals Success exactly
when all ten table statuses do. -/
theorem rest_overall_iff (raw : RawData) (env : TableId → MergeEnv)
    (r3 : RunResults) :
    ((transform_all_rest raw env r3).overall_status = "Success" ↔
      ∀ s ∈ statusList (transform_all_rest raw env r3), s = "Success") := by
  rw [rest_overall]
  by_cases hc : (statusList (transform_all_rest raw env r3)).all
      (fun s => decide (s = "Success")) = true
  · rw [if_pos hc]
    simp only [List.all_eq_true, decide_eq_true_eq] at hc
    exact ⟨fun _ => hc, fun _ => rfl⟩
  · rw [if_neg hc]
    constructor
    · intro h
      exact absurd h (by decide)
    · intro h
      exact absurd (List.all_eq_true.mpr (fun s hs => decide_eq_true (h s hs))) hc

/-- The overall status of a run equals Success exactly when all ten table
statuses do, on the abort path included. -/
theorem transform_all_overall_iff (raw : RawData) (env : TableId → MergeEnv) :
    ((transform_all raw env).overall_status = "Success" ↔
      ∀ s ∈ statusList (transform_all raw env), s = "Success") := by
  rw [transform_all_cases]
  by_cases ha : viewsAborted raw env = true
  · rw [if_pos ha]
    constructor
    · intro h
      rw [(preViews_rest_failed raw env).2.2.2.2.2.2.2.2] at h
      exact absurd h (by decide)
    · intro h
      have hv := h _ (tableStatus_mem (preViewsResults raw env) TableId.views)
      rw [show tableStatus (preViewsResults raw env) TableId.views =
        (preViewsResults raw env).views_status from rfl,
        (preViews_rest_failed raw env).1] at hv
      exact absurd hv (by decide)
  · rw [if_neg ha]
    exact rest_overall_iff raw env _

/-- The overall status of a run is always Success or Failed. -/
theorem transform_all_overall_cases (raw : RawData) (env : TableId → MergeEnv) :
    (transform_all raw env).overall_status = "Success" ∨
      (transform_all raw env).overall_status = "Failed" := by
  rw [transform_all_cases]
  by_cases ha : viewsAborted raw env = true
  · rw [if_pos ha]
    exact Or.inr (preViews_rest_failed raw env).2.2.2.2.2.2.2.2
  · rw [if_neg ha, rest_overall]
    by_cases hc : (statusList (transform_all_rest raw env
        (if (get_views raw).isEmpty then preViewsResults raw env
         else { preViewsResults raw env with
                views_status := viewsStepStatus raw env }))).all
        (fun s => decide (s = "Success")) = true
    · rw [if_pos hc]
      exact Or.inl rfl
    · rw [if_neg hc]
      exact Or.inr rfl

/-- A views batch that cannot raise means the run never aborts, whatever
the environment. -/
theorem viewsAborted_of_no_crash (raw : RawData) (env : TableId → MergeEnv)
    (hnc : viewsCrash (get_views raw) = false) :
    viewsAborted raw env = false := by
  unfold viewsAborted
  cases hcfg : (env .views).cfg with
  | error e => simp [generate_views_csv_from_config, hcfg]
  | ok u =>
    by_cases hv : (get_views raw).isEmpty
    · simp [hv]
    · cases hwr : (env .views).wr with
      | error e2 => simp [generate_views_csv_from_config, hcfg, hwr, hv, hnc]
      | ok u2 => simp [generate_views_csv_from_config, hcfg, hwr, hv, hnc]

/-- With a loadable configuration, a successful write and a batch that
cannot raise, the views step stores Success. -/
theorem viewsStepStatus_ok (raw : RawData) (env : TableId → MergeEnv)
    (hcfg : (env .views).cfg = .ok ()) (hwr : (env .views).wr = .ok ())
    (hnc : viewsCrash (get_views raw) = false) :
    viewsStepStatus raw env = "Success" := by
  unfold viewsStepStatus generate_views_csv_from_config
  rw [hcfg, hwr]
  by_cases hv : (get_views raw).isEmpty <;> simp [hv, hnc]

/-! ## Claim C4 -/

/-- C4, counterexample: on a well-shaped document whose views table holds
two Dashboard views of which one has no name, the views generator's sort
raises an uncaught TypeError which aborts the run midway — the tags table
has data and its generator alone would report Success, yet its status
stays Failed, so not every table's extraction-and-merge step is
attempted; moreover which tables run depends on the views table's own
configuration environment (a views config failure skips the sort and
lets the run continue), although the two environments agree on the tags
table. -/
theorem c4_run_abort_counterexample :
    (get_tags c4doc).isEmpty = false ∧
    (generate_tags_csv_from_config (allOkEnv TableId.tags).cfg
      (allOkEnv TableId.tags).file (get_tags c4doc)
      (allOkEnv TableId.tags).wr).1.status = "Success" ∧
    tableStatus (transform_all c4doc allOkEnv) TableId.tags = "Failed" ∧
    (transform_all c4doc allOkEnv).overall_status = "Failed" ∧
    tableStatus (transform_all c4doc viewsCfgFailEnv) TableId.tags
      = "Success" ∧
    allOkEnv TableId.tags = viewsCfgFailEnv TableId.tags := by
  decide

/-- C4, amended: the overall status of transform_all is Success exactly
when every individual table status is Success, and a single table with
any status other than Success makes the overall status Failed; and
whenever the views batch cannot raise the uncaught TypeError of its sort
(no None-named view among two or more), every table's status depends
only on that table's own merge environment, so no table is
short-circuited by another table's failure.  When the views sort does
raise, the run aborts and the tables from views on keep their initial
Failed status. -/
theorem c4_overall_status (raw : RawData) (env env2 : TableId → MergeEnv)
    (t : TableId) (hagree : env t = env2 t) :
    ((transform_all raw env).overall_status = "Success" ↔
      ∀ s ∈ statusList (transform_all raw env), s = "Success") ∧
    (tableStatus (transform_all raw env) t ≠ "Success" →
      (transform_all raw env).overall_status = "Failed") ∧
    (viewsCrash (get_views raw) = false →
      tableStatus (transform_all raw env) t =
        tableStatus (transform_all raw env2) t) := by
  refine ⟨transform_all_overall_iff raw env, ?_, ?_⟩
  · intro hne
    rcases transform_all_overall_cases raw env with h | h
    · exact absurd ((transform_all_overall_iff raw env).mp h _
        (tableStatus_mem _ t)) hne
    · exact h
  · intro hnc
    have hab : viewsAborted raw env = false := viewsAborted_of_no_crash raw env hnc
    have hab2 : viewsAborted raw env2 = false :=
      viewsAborted_of_no_crash raw env2 hnc
    cases t
    case users =>
      show (transform_all raw env).users_status =
        (transform_all raw env2).users_status
      rw [transform_all_users, transform_all_users, hagree]
    case workbooks =>
      show (transform_all raw env).workbooks_status =
        (transform_all raw env2).workbooks_status
      rw [transform_all_workbooks, transform_all_workbooks, hagree]
    case views =>
      show (transform_all raw env).views_status =
        (transform_all raw env2).views_status
      rw [transform_all_views, transform_all_views]
      unfold viewsAborted viewsStepStatus
      rw [hagree]
    case tags =>
      show (transform_all raw env).tags_status =
        (transform_all raw env2).tags_status
      rw [transform_all_tags, transform_all_tags, hab, hab2, hagree]
    case connections =>
      show (transform_all raw env).connections_status =
        (transform_all raw env2).connections_status
      rw [transform_all_connections, transform_all_connections, hab, hab2,
        hagree]
    case datasources =>
      show (transform_all raw env).datasources_status =
        (transform_all raw env2).datasources_status
      rw [transform_all_datasources, transform_all_datasources, hab, hab2,
        hagree]
    case datasource_connections =>
      show (transform_all raw env).datasource_connections_status =
        (transform_all raw env2).datasource_connections_status
      rw [transform_all_datasource_connections,
        transform_all_datasource_connections, hab, hab2, hagree]
    case workbook_views =>
      show (transform_all raw env).workbook_views_status =
        (transform_all raw env2).workbook_views_status
      rw [transform_all_workbook_views, transform_all_workbook_views, hab,
        hab2, hagree]
    case workbook_tags =>
      show (transform_all raw env).workbook_tags_status =
        (transform_all raw env2).workbook_tags_status
      rw [transform_all_workbook_tags, transform_all_workbook_tags, hab, hab2,
        hagree]
    case workbook_datasources =>
      show (transform_all raw env).workbook_datasources_status =
        (transform_all raw env2).workbook_datasources_status
      rw [transform_all_workbook_datasources, transform_all_workbook_datasources,
        hab, hab2, hagree]

/-- C4, witness: the theorem instantiated at the concrete document and the
all-ok environment. -/
theorem c4_overall_status_witness :
    ((transform_all c3doc allOkEnv).overall_status = "Success" ↔
      ∀ s ∈ statusList (transform_all c3doc allOkEnv), s = "Success") ∧
    (tableStatus (transform_all c3doc allOkEnv) TableId.users ≠ "Success" →
      (transform_all c3doc allOkEnv).overall_status = "Failed") ∧
    (viewsCrash (get_views c3doc) = false →
      tableStatus (transform_all c3doc allOkEnv) TableId.users =
        tableStatus (transform_all c3doc allOkEnv) TableId.users) :=
  c4_overall_status c3doc allOkEnv allOkEnv TableId.users rfl

/-! ## Claim C3 -/

/-- With a loadable configuration, a successful write and no None-named
record, the users generator reports Success on every batch. -/
theorem users_csv_ok (file : Option (List CsvRow)) (d : List UserRecord)
    (hn : d.any (fun u => u.name.isNone) = false) :
    (generate_users_csv_from_config (.ok ()) file d (.ok ())).1 = "Success" := by
  unfold generate_users_csv_from_config
  by_cases h : d.isEmpty <;> simp [h, hn]

/-- With a loadable configuration and a successful write, the workbooks
generator reports Success on every batch. -/
theorem workbooks_csv_ok (file : Option (List CsvRow)) (d : List WorkbookRecord) :
    (generate_workbooks_csv_from_config (.ok ()) file d (.ok ())).1 = "Success" := by
  unfold generate_workbooks_csv_from_config
  by_cases h : d.isEmpty <;> simp [h]

/-- With a loadable configuration and a successful write, the tags
generator reports Success on every batch. -/
theorem tags_csv_ok (file : Option (List CsvRow)) (d : List TagRecord) :
    (generate_tags_csv_from_config (.ok ()) file d (.ok ())).1.status
      = "Success" := by
  unfold generate_tags_csv_from_config
  by_cases h : d.isEmpty <;> simp [h]

/-- With a loadable configuration and a successful write, the connections
generator reports Success on every batch. -/
theorem connections_csv_ok (file : Option (List CsvRow)) (d : List Connection) :
    (generate_connection_csv_from_config (.ok ()) file d (.ok ())).1.status
      = "Success" := by
  unfold generate_connection_csv_from_config
  by_cases h : d.isEmpty <;> simp [h]

/-- With a loadable configuration and a successful write, the datasources
generator reports Success on every batch. -/
theorem datasources_csv_ok (file : Option (List CsvRow))
    (d : List DatasourceRecord) :
    (generate_datasources_csv_from_config (.ok ()) file d (.ok ())).1.status
      = "Success" := by
  unfold generate_datasources_csv_from_config
  by_cases h : (dsNewRows (read_existing_datasources file) d).1.isEmpty <;>
    simp [h]

/-- With a loadable configuration and a successful write, the
datasource-connections generator reports Success on every batch. -/
theorem datasource_connections_csv_ok (file : Option (List CsvRow))
    (d : List DatasourceConnectionRow) :
    (generate_datasource_connections_csv_from_config (.ok ()) file d
      (.ok ())).1.status = "Success" := by
  unfold generate_datasource_connections_csv_from_config
  by_cases h : d.isEmpty
  · simp [h]
  · simp only [h, if_false, Bool.false_eq_true, if_neg]
    split <;> simp

/-- With a loadable configuration and a successful write, the
workbook-datasources generator reports Success on every batch. -/
theorem workbook_datasources_csv_ok (file : Option (List CsvRow))
    (d : List WorkbookDatasourceRow) :
    (generate_workbook_datasources_csv_from_config (.ok ()) file d
      (.ok ())).1.status = "Success" := by
  unfold generate_workbook_datasources_csv_from_config
  by_cases h : d.isEmpty
  · simp [h]
  · simp only [h, if_false, Bool.false_eq_true, if_neg]
    split <;> simp

/-- With a loadable configuration and a successful write, the
workbook-views generator reports Success on every batch. -/
theorem workbook_views_csv_ok (file : Option (List CsvRow))
    (d : List WorkbookViewRow) :
    (generate_workbook_views_csv_from_config (.ok ()) file d (.ok ())).1
      = "Success" := by
  unfold generate_workbook_views_csv_from_config
  by_cases h : d.isEmpty <;> simp [h]

/-- With a loadable configuration and a successful write, the
workbook-tags generator reports Success on every batch. -/
theorem workbook_tags_csv_ok (file : Option (List CsvRow))
    (d : List WorkbookTagRow) :
    (generate_workbook_tags_csv_from_config (.ok ()) file d (.ok ())).1
      = "Success" := by
  unfold generate_workbook_tags_csv_from_config
  by_cases h : d.isEmpty <;> simp [h]

/-- C3: when every table's configuration loads, every extractor yields
data, no view or user record carries a None name (so neither sort raises)
and only the datasources write fails, the datasources table is reported
Failed with the underlying IOError message, every other table is still
processed and reported Success, and the overall status is Failed. -/
theorem c3_fault_isolation (raw : RawData) (env : TableId → MergeEnv) (e : String)
    (hcfg : ∀ t, (env t).cfg = .ok ())
    (hwr : ∀ t, t ≠ TableId.datasources → (env t).wr = .ok ())
    (hdswr : (env TableId.datasources).wr = .error e)
    (h1 : ¬ (get_users raw).isEmpty = true)
    (h2 : ¬ (get_workbooks raw).isEmpty = true)
    (h3 : ¬ (get_views raw).isEmpty = true)
    (h4 : ¬ (get_tags raw).isEmpty = true)
    (h5 : ¬ (get_connections raw).isEmpty = true)
    (h6 : ¬ (get_datasources raw).isEmpty = true)
    (h7 : ¬ (get_datasource_connections raw).isEmpty = true)
    (h8 : ¬ (get_workbook_views raw).isEmpty = true)
    (h9 : ¬ (get_workbook_tags raw).isEmpty = true)
    (h10 : ¬ (get_workbook_datasources raw).isEmpty = true)
    (hvn : (get_views raw).any (fun v => v.name.isNone) = false)
    (hun : (get_users raw).any (fun u => u.name.isNone) = false)
    (hnew : ¬ (dsNewRows (read_existing_datasources (env TableId.datasources).file)
      (get_datasources raw)).1.isEmpty = true) :
    (transform_all raw env).datasources_status = "Failed" ∧
    (generate_datasources_csv_from_config (env TableId.datasources).cfg
      (env TableId.datasources).file (get_datasources raw)
      (env TableId.datasources).wr).1.error_message
      = some ("IOError while writing CSV file: " ++ e) ∧
    (∀ t, t ≠ TableId.datasources →
      tableStatus (transform_all raw env) t = "Success") ∧
    (transform_all raw env).overall_status = "Failed" := by
  have hnc : viewsCrash (get_views raw) = false := by
    unfold viewsCrash
    rw [hvn]
    simp
  have hab : viewsAborted raw env = false := viewsAborted_of_no_crash raw env hnc
  have hds : (generate_datasources_csv_from_config (env TableId.datasources).cfg
      (env TableId.datasources).file (get_datasources raw)
      (env TableId.datasources).wr) =
      ({ status := "Failed",
         processed_count := (dsNewRows
           (read_existing_datasources (env TableId.datasources).file)
           (get_datasources raw)).1.length,
         skipped_count := (dsNewRows
           (read_existing_datasources (env TableId.datasources).file)
           (get_datasources raw)).2,
         error_message := some ("IOError while writing CSV file: " ++ e) },
       (env TableId.datasources).file) := by
    rw [hcfg, hdswr]
    unfold generate_datasources_csv_from_config
    rw [if_neg hnew]
  have hdstatus : (transform_all raw env).datasources_status = "Failed" := by
    rw [transform_all_datasources, hab]
    simp only [Bool.false_eq_true, if_false]
    rw [if_neg h6, hds]
  refine ⟨hdstatus, by rw [hds], ?_, ?_⟩
  · intro t ht
    cases t
    case users =>
      show (transform_all raw env).users_status = "Success"
      rw [transform_all_users, if_neg h1, hcfg, hwr _ ht]
      exact users_csv_ok _ _ hun
    case workbooks =>
      show (transform_all raw env).workbooks_status = "Success"
      rw [transform_all_workbooks, if_neg h2, hcfg, hwr _ ht]
      exact workbooks_csv_ok _ _
    case views =>
      show (transform_all raw env).views_status = "Success"
      rw [transform_all_views, hab]
      simp only [Bool.false_eq_true, if_false]
      rw [if_neg h3]
      exact viewsStepStatus_ok raw env (hcfg _) (hwr _ ht) hnc
    case tags =>
      show (transform_all raw env).tags_status = "Success"
      rw [transform_all_tags, hab]
      simp only [Bool.false_eq_true, if_false]
      rw [if_neg h4, hcfg, hwr _ ht]
      exact tags_csv_ok _ _
    case connections =>
      show (transform_all raw env).connections_status = "Success"
      rw [transform_all_connections, hab]
      simp only [Bool.false_eq_true, if_false]
      rw [if_neg h5, hcfg, hwr _ ht]
      exact connections_csv_ok _ _
    case datasources => exact absurd rfl ht
    case datasource_connections =>
      show (transform_all raw env).datasource_connections_status = "Success"
      rw [transform_all_datasource_connections, hab]
      simp only [Bool.false_eq_true, if_false]
      rw [if_neg h7, hcfg, hwr _ ht]
      exact datasource_connections_csv_ok _ _
    case workbook_views =>
      show (transform_all raw env).workbook_views_status = "Success"
      rw [transform_all_workbook_views, hab]
      simp only [Bool.false_eq_true, if_false]
      rw [if_neg h8, hcfg, hwr _ ht]
      exact workbook_views_csv_ok _ _
    case workbook_tags =>
      show (transform_all raw env).workbook_tags_status = "Success"
      rw [transform_all_workbook_tags, hab]
      simp only [Bool.false_eq_true, if_false]
      rw [if_neg h9, hcfg, hwr _ ht]
      exact workbook_tags_csv_ok _ _
    case workbook_datasources =>
      show (transform_all raw env).workbook_datasources_status = "Success"
      rw [transform_all_workbook_datasources, hab]
      simp only [Bool.false_eq_true, if_false]
      rw [if_neg h10, hcfg, hwr _ ht]
      exact workbook_datasources_csv_ok _ _
  · rcases transform_all_overall_cases raw env with h | h
    · exfalso
      have hmem := (transform_all_overall_iff raw env).mp h _
        (tableStatus_mem (transform_all raw env) TableId.datasources)
      rw [show tableStatus (transform_all raw env) TableId.datasources =
        (transform_all raw env).datasources_status from rfl, hdstatus] at hmem
      exact absurd hmem (by decide)
    · exact h

/-- C3, witness: the theorem instantiated at the concrete document and the
environment whose datasources file is unwritable. -/
theorem c3_fault_isolation_witness :
    (transform_all c3doc c3env).datasources_status = "Failed" ∧
    (generate_datasources_csv_from_config (c3env TableId.datasources).cfg
      (c3env TableId.datasources).file (get_datasources c3doc)
      (c3env TableId.datasources).wr).1.error_message
      = some ("IOError while writing CSV file: " ++ "disk full") ∧
    (∀ t, t ≠ TableId.datasources →
      tableStatus (transform_all c3doc c3env) t = "Success") ∧
    (transform_all c3doc c3env).overall_status = "Failed" :=
  c3_fault_isolation c3doc c3env "disk full" (fun _ => rfl)
    (fun t ht => by simp [c3env, if_neg ht]) rfl
    (by decide) (by decide) (by decide) (by decide) (by decide) (by decide)
    (by decide) (by decide) (by decide) (by decide) (by decide) (by decide)
    (by decide)

end Tableau
